import Mathlib

/-!
# PIB attribute store of the nRF 802.15.4 radio driver

Shallow embedding of `nrf_drv_radio802154_pib.c`.

* Bytes (`uint8_t`) are natural numbers; every byte that the C program can hold is below 256.
  The statements below hold for all naturals, hence for all bytes.
* The static `m_data` is passed explicitly.
* A `const uint8_t *` argument is the list of bytes of the object it points into, starting at
  the pointer.  A read past the end of that object has no defined result: it is `none`, and
  every index that was read is recorded.
-/

namespace Pib

/-! ## Constants -/

/-- Modelled from the spec: `PAN_ID_SIZE` of `nrf_drv_radio802154_const.h`, a header that the
source file includes; the PAN ID is a 2-byte identifier. -/
abbrev PAN_ID_SIZE : Nat := 2

/-- Modelled from the spec: `SHORT_ADDRESS_SIZE` of `nrf_drv_radio802154_const.h`; the short
address is a 2-byte identifier. -/
abbrev SHORT_ADDRESS_SIZE : Nat := 2

/-- Modelled from the spec: `EXTENDED_ADDRESS_SIZE` of `nrf_drv_radio802154_const.h`; the
extended address is an 8-byte identifier. -/
abbrev EXTENDED_ADDRESS_SIZE : Nat := 8

/-- The frame-layout constants of `nrf_drv_radio802154_const.h` that the predicate uses and
whose values are given neither by the source file nor by the specification.  They are
parameters of the embedding. -/
structure FrameConsts where
  PAN_ID_OFFSET : Nat
  DEST_ADDR_TYPE_OFFSET : Nat
  DEST_ADDR_TYPE_MASK : Nat
  DEST_ADDR_TYPE_SHORT : Nat
  DEST_ADDR_TYPE_EXTENDED : Nat
  DEST_ADDR_OFFSET : Nat
deriving DecidableEq

/-- A concrete layout used for evaluation: the IEEE 802.15.4 data frame with 16-bit PAN ID
compression, where the second frame-control byte sits at buffer index 2, the destination
PAN ID at frame offset 3 and the destination address at frame offset 5; destination
addressing mode in bits 2..3 of the control byte (short = 0x08, extended = 0x0c). -/
def sampleConsts : FrameConsts :=
  { PAN_ID_OFFSET := 3
    DEST_ADDR_TYPE_OFFSET := 2
    DEST_ADDR_TYPE_MASK := 0x0c
    DEST_ADDR_TYPE_SHORT := 0x08
    DEST_ADDR_TYPE_EXTENDED := 0x0c
    DEST_ADDR_OFFSET := 5 }

/-! ## Data model -/

/-- A C array `uint8_t a[n]`. -/
abbrev Bytes (n : Nat) : Type := { l : List Nat // l.length = n }

/-- The compound literal `BROADCAST_ADDRESS`, `(uint8_t [SHORT_ADDRESS_SIZE]) {0xff, 0xff}`. -/
def BROADCAST_ADDRESS : Bytes SHORT_ADDRESS_SIZE := ⟨[0xff, 0xff], rfl⟩

/-- The struct `nrf_drv_radio802154_pib_data_t`.  The bit-field `channel` has width 5; the
stores into it reduce modulo `2 ^ 5`. -/
structure nrf_drv_radio802154_pib_data_t where
  tx_power : Int
  pan_id : Bytes PAN_ID_SIZE
  short_addr : Bytes SHORT_ADDRESS_SIZE
  extended_addr : Bytes EXTENDED_ADDRESS_SIZE
  promiscuous : Bool
  auto_ack : Bool
  channel : Nat
deriving DecidableEq

/-! ## Reads through a pointer -/

/-- Outcome of a computation that reads through a pointer: the indices it read, in order, and
its value, `none` when one of the reads fell outside the object pointed into. -/
structure Access (α : Type) where
  reads : List Nat
  result : Option α

/-- A computation that reads nothing. -/
def Access.ret {α : Type} (a : α) : Access α := ⟨[], some a⟩

/-- Sequencing: the second computation runs only when the first one had a value. -/
def Access.andThen {α β : Type} (x : Access α) (f : α → Access β) : Access β :=
  match x.result with
  | none => ⟨x.reads, none⟩
  | some a => ⟨x.reads ++ (f a).reads, (f a).result⟩

/-- The C operator `&&`: the right operand is evaluated only when the left one is true. -/
def Access.land (x y : Access Bool) : Access Bool :=
  x.andThen fun b => if b then y else Access.ret false

/-- The indices `off, off + 1, ..., off + n - 1`. -/
def span (off n : Nat) : List Nat := (List.range n).map fun i => off + i

/-- The expression `p[i]`. -/
def load (p : List Nat) (i : Nat) : Access Nat := ⟨[i], p[i]?⟩

/-- Byte-wise comparison of two regions of equal length, as `memcmp` does: zero when all bytes
agree, otherwise the difference of the first pair of bytes that differ (the C standard fixes
only the sign). -/
def memcmpBytes : List Nat → List Nat → Int
  | a :: as, b :: bs => if a = b then memcmpBytes as bs else (a : Int) - (b : Int)
  | _, _ => 0

/-- The call `memcmp(&p[off], s2, n)` where `s2` is an array of the program holding at least
`n` bytes: it reads the `n` bytes of `p` from index `off` on. -/
def memcmp (p : List Nat) (off : Nat) (s2 : List Nat) (n : Nat) : Access Int :=
  ⟨span off n,
    if off + n ≤ p.length then some (memcmpBytes ((p.drop off).take n) (s2.take n)) else none⟩

/-- The call `memcpy(dst, p, n)` into an array `dst` of `n` bytes: the new contents of `dst`. -/
def memcpy (n : Nat) (p : List Nat) : Access (Bytes n) :=
  if h : n ≤ p.length then
    ⟨span 0 n, some ⟨p.take n, by simp [h]⟩⟩
  else
    ⟨span 0 n, none⟩

/-! ## Operations -/

/-- The function `nrf_drv_radio802154_pib_init`. -/
def nrf_drv_radio802154_pib_init (m_data : nrf_drv_radio802154_pib_data_t) :
    nrf_drv_radio802154_pib_data_t :=
  let m1 := { m_data with promiscuous := false }
  let m2 := { m1 with auto_ack := true }
  let m3 := { m2 with channel := 11 % 2 ^ 5 }
  let m4 := { m3 with pan_id := ⟨List.replicate PAN_ID_SIZE 0xff, by simp⟩ }
  let m5 := { m4 with short_addr := ⟨m4.short_addr.val.set 0 0xfe, by simp [m4.short_addr.property]⟩ }
  let m6 := { m5 with short_addr := ⟨m5.short_addr.val.set 1 0xff, by simp [m5.short_addr.property]⟩ }
  { m6 with extended_addr := ⟨List.replicate EXTENDED_ADDRESS_SIZE 0, by simp⟩ }

/-- The function `nrf_drv_radio802154_pib_promiscuous_get`. -/
def nrf_drv_radio802154_pib_promiscuous_get (m_data : nrf_drv_radio802154_pib_data_t) : Bool :=
  m_data.promiscuous

/-- The function `nrf_drv_radio802154_pib_promiscuous_set`. -/
def nrf_drv_radio802154_pib_promiscuous_set (enabled : Bool)
    (m_data : nrf_drv_radio802154_pib_data_t) : nrf_drv_radio802154_pib_data_t :=
  { m_data with promiscuous := enabled }

/-- The function `nrf_drv_radio802154_pib_auto_ack_get`. -/
def nrf_drv_radio802154_pib_auto_ack_get (m_data : nrf_drv_radio802154_pib_data_t) : Bool :=
  m_data.auto_ack

/-- The function `nrf_drv_radio802154_pib_auto_ack_set`. -/
def nrf_drv_radio802154_pib_auto_ack_set (enabled : Bool)
    (m_data : nrf_drv_radio802154_pib_data_t) : nrf_drv_radio802154_pib_data_t :=
  { m_data with auto_ack := enabled }

/-- The function `nrf_drv_radio802154_pib_channel_get`. -/
def nrf_drv_radio802154_pib_channel_get (m_data : nrf_drv_radio802154_pib_data_t) : Nat :=
  m_data.channel

/-- The function `nrf_drv_radio802154_pib_channel_set`; the parameter is a `uint8_t` and the
store into the 5-bit field keeps its low five bits. -/
def nrf_drv_radio802154_pib_channel_set (channel : Nat)
    (m_data : nrf_drv_radio802154_pib_data_t) : nrf_drv_radio802154_pib_data_t :=
  { m_data with channel := channel % 2 ^ 8 % 2 ^ 5 }

/-- The function `nrf_drv_radio802154_pib_tx_power_get`. -/
def nrf_drv_radio802154_pib_tx_power_get (m_data : nrf_drv_radio802154_pib_data_t) : Int :=
  m_data.tx_power

/-- The function `nrf_drv_radio802154_pib_tx_power_set`; the parameter is an `int8_t`. -/
def nrf_drv_radio802154_pib_tx_power_set (dbm : Int)
    (m_data : nrf_drv_radio802154_pib_data_t) : nrf_drv_radio802154_pib_data_t :=
  { m_data with tx_power := dbm }

/-- The function `nrf_drv_radio802154_pib_pan_id_set`. -/
def nrf_drv_radio802154_pib_pan_id_set (p_pan_id : List Nat)
    (m_data : nrf_drv_radio802154_pib_data_t) : Access nrf_drv_radio802154_pib_data_t :=
  (memcpy PAN_ID_SIZE p_pan_id).andThen fun a => Access.ret { m_data with pan_id := a }

/-- The function `nrf_drv_radio802154_pib_extended_address_set`. -/
def nrf_drv_radio802154_pib_extended_address_set (p_extended_address : List Nat)
    (m_data : nrf_drv_radio802154_pib_data_t) : Access nrf_drv_radio802154_pib_data_t :=
  (memcpy EXTENDED_ADDRESS_SIZE p_extended_address).andThen fun a =>
    Access.ret { m_data with extended_addr := a }

/-- The function `nrf_drv_radio802154_pib_short_address_set`. -/
def nrf_drv_radio802154_pib_short_address_set (p_short_address : List Nat)
    (m_data : nrf_drv_radio802154_pib_data_t) : Access nrf_drv_radio802154_pib_data_t :=
  (memcpy SHORT_ADDRESS_SIZE p_short_address).andThen fun a =>
    Access.ret { m_data with short_addr := a }

/-- The function `nrf_drv_radio802154_pib_dest_addr_matches`.  The recorded indices are those
of `p_psdu`. -/
def nrf_drv_radio802154_pib_dest_addr_matches (k : FrameConsts)
    (m_data : nrf_drv_radio802154_pib_data_t) (p_psdu : List Nat) : Access Bool :=
  -- Check destination PAN Id.
  (Access.land
    ((memcmp p_psdu (k.PAN_ID_OFFSET + 1) m_data.pan_id.val PAN_ID_SIZE).andThen
      fun r => Access.ret (decide (0 ≠ r)))
    ((memcmp p_psdu (k.PAN_ID_OFFSET + 1) BROADCAST_ADDRESS.val PAN_ID_SIZE).andThen
      fun r => Access.ret (decide (0 ≠ r)))).andThen fun panMismatch =>
  if panMismatch then Access.ret false
  else
    -- Check destination address.
    (load p_psdu k.DEST_ADDR_TYPE_OFFSET).andThen fun b =>
    if b &&& k.DEST_ADDR_TYPE_MASK = k.DEST_ADDR_TYPE_SHORT then
      (Access.land
        ((memcmp p_psdu (k.DEST_ADDR_OFFSET + 1) m_data.short_addr.val
            SHORT_ADDRESS_SIZE).andThen fun r => Access.ret (decide (0 ≠ r)))
        ((memcmp p_psdu (k.DEST_ADDR_OFFSET + 1) BROADCAST_ADDRESS.val
            SHORT_ADDRESS_SIZE).andThen fun r => Access.ret (decide (0 ≠ r)))).andThen
        fun addrMismatch => if addrMismatch then Access.ret false else Access.ret true
    else if b &&& k.DEST_ADDR_TYPE_MASK = k.DEST_ADDR_TYPE_EXTENDED then
      (memcmp p_psdu (k.DEST_ADDR_OFFSET + 1) m_data.extended_addr.val
          EXTENDED_ADDRESS_SIZE).andThen
        fun r => if 0 ≠ r then Access.ret false else Access.ret true
    else
      Access.ret false

/-! ## The module as a state machine -/

/-- A call of one of the functions of the module, with its arguments. -/
inductive Call where
  | init
  | promiscuous_get
  | promiscuous_set (enabled : Bool)
  | auto_ack_get
  | auto_ack_set (enabled : Bool)
  | channel_get
  | channel_set (channel : Nat)
  | tx_power_get
  | tx_power_set (dbm : Int)
  | pan_id_set (p_pan_id : List Nat)
  | extended_address_set (p_extended_address : List Nat)
  | short_address_set (p_short_address : List Nat)
  | dest_addr_matches (p_psdu : List Nat)

/-- The value a call returns. -/
inductive Ret where
  | void
  | bool (b : Bool)
  | uint8 (n : Nat)
  | int8 (i : Int)
deriving DecidableEq

/-- One call on the static `m_data`: the value returned and `m_data` after the call.  The
getters and `nrf_drv_radio802154_pib_dest_addr_matches` contain no store to `m_data`. -/
def call (k : FrameConsts) (c : Call) (m_data : nrf_drv_radio802154_pib_data_t) :
    Access (Ret × nrf_drv_radio802154_pib_data_t) :=
  match c with
  | .init => Access.ret (Ret.void, nrf_drv_radio802154_pib_init m_data)
  | .promiscuous_get =>
      Access.ret (Ret.bool (nrf_drv_radio802154_pib_promiscuous_get m_data), m_data)
  | .promiscuous_set enabled =>
      Access.ret (Ret.void, nrf_drv_radio802154_pib_promiscuous_set enabled m_data)
  | .auto_ack_get => Access.ret (Ret.bool (nrf_drv_radio802154_pib_auto_ack_get m_data), m_data)
  | .auto_ack_set enabled =>
      Access.ret (Ret.void, nrf_drv_radio802154_pib_auto_ack_set enabled m_data)
  | .channel_get => Access.ret (Ret.uint8 (nrf_drv_radio802154_pib_channel_get m_data), m_data)
  | .channel_set channel =>
      Access.ret (Ret.void, nrf_drv_radio802154_pib_channel_set channel m_data)
  | .tx_power_get => Access.ret (Ret.int8 (nrf_drv_radio802154_pib_tx_power_get m_data), m_data)
  | .tx_power_set dbm => Access.ret (Ret.void, nrf_drv_radio802154_pib_tx_power_set dbm m_data)
  | .pan_id_set p =>
      (nrf_drv_radio802154_pib_pan_id_set p m_data).andThen fun m => Access.ret (Ret.void, m)
  | .extended_address_set p =>
      (nrf_drv_radio802154_pib_extended_address_set p m_data).andThen fun m =>
        Access.ret (Ret.void, m)
  | .short_address_set p =>
      (nrf_drv_radio802154_pib_short_address_set p m_data).andThen fun m =>
        Access.ret (Ret.void, m)
  | .dest_addr_matches p_psdu =>
      (nrf_drv_radio802154_pib_dest_addr_matches k m_data p_psdu).andThen fun b =>
        Access.ret (Ret.bool b, m_data)

/-- A sequence of calls on the static `m_data`, one after the other: `m_data` after the last
one. -/
def run (k : FrameConsts) : List Call → nrf_drv_radio802154_pib_data_t →
    Access nrf_drv_radio802154_pib_data_t
  | [], m_data => Access.ret m_data
  | c :: cs, m_data => (call k c m_data).andThen fun r => run k cs r.2

/-! ## Concrete data for evaluation -/

/-- A state with PAN ID `{0x34, 0x12}` and short address `{0x78, 0x56}`. -/
def sampleState : nrf_drv_radio802154_pib_data_t :=
  { tx_power := 0
    pan_id := ⟨[0x34, 0x12], rfl⟩
    short_addr := ⟨[0x78, 0x56], rfl⟩
    extended_addr := ⟨[0x01, 0x02, 0x03, 0x04, 0x05, 0x06, 0x07, 0x08], rfl⟩
    promiscuous := false
    auto_ack := true
    channel := 11 }

/-- A buffer in the layout of `sampleConsts`: length byte, first frame-control byte, second
frame-control byte `ctl`, sequence number `seq`, destination PAN ID, destination address, and
two trailing bytes. -/
def sampleFrame (ctl seq : Nat) (pan dst : List Nat) : List Nat :=
  [0x0d, 0x41, ctl, seq] ++ pan ++ dst ++ [0xaa, 0xbb]

/-- The state `sampleState` with other values in the attributes that are not addresses. -/
def sampleStatePromiscuous : nrf_drv_radio802154_pib_data_t :=
  { sampleState with tx_power := -20, promiscuous := true, auto_ack := false, channel := 26 }

/-! ## The frame fields, as the statements below name them -/

/-- The `PAN_ID_SIZE` bytes of the buffer from index `PAN_ID_OFFSET + 1` on. -/
def destPan (k : FrameConsts) (p_psdu : List Nat) : List Nat :=
  (p_psdu.drop (k.PAN_ID_OFFSET + 1)).take PAN_ID_SIZE

/-- The value `p_psdu[DEST_ADDR_TYPE_OFFSET] & DEST_ADDR_TYPE_MASK` (0 for the byte when the
buffer ends before that index). -/
def destMode (k : FrameConsts) (p_psdu : List Nat) : Nat :=
  p_psdu.getD k.DEST_ADDR_TYPE_OFFSET 0 &&& k.DEST_ADDR_TYPE_MASK

/-- The first `n` bytes of the buffer from index `DEST_ADDR_OFFSET + 1` on. -/
def destAddr (k : FrameConsts) (p_psdu : List Nat) (n : Nat) : List Nat :=
  (p_psdu.drop (k.DEST_ADDR_OFFSET + 1)).take n

/-! ## Auxiliary facts about the memory primitives -/

theorem memcmpBytes_eq_zero_iff (xs ys : List Nat) (h : xs.length = ys.length) :
    memcmpBytes xs ys = 0 ↔ xs = ys := by
  induction xs generalizing ys with
  | nil =>
    cases ys with
    | nil => simp [memcmpBytes]
    | cons b bs => simp at h
  | cons a as ih =>
    cases ys with
    | nil => simp at h
    | cons b bs =>
      simp only [List.length_cons, Nat.add_right_cancel_iff] at h
      by_cases hab : a = b
      · simp [memcmpBytes, hab, ih bs h]
      · simp only [memcmpBytes, hab, if_false, List.cons.injEq, false_and, iff_false]
        omega

theorem memcmp_reads (p : List Nat) (off : Nat) (s2 : List Nat) (n : Nat) :
    (memcmp p off s2 n).reads = span off n := rfl

theorem memcmp_result (p : List Nat) (off : Nat) (s2 : List Nat) (n : Nat)
    (h : off + n ≤ p.length) :
    (memcmp p off s2 n).result = some (memcmpBytes ((p.drop off).take n) (s2.take n)) := by
  simp [memcmp, h]

/-- Inside the buffer, `0 != memcmp(&p[off], a, n)` says that the `n` bytes at `off` are not
the array `a`. -/
theorem memcmp_ne_zero_iff (p : List Nat) (off n : Nat) (a : Bytes n)
    (h : off + n ≤ p.length) :
    (0 ≠ memcmpBytes ((p.drop off).take n) (a.val.take n)) ↔ (p.drop off).take n ≠ a.val := by
  have hl : ((p.drop off).take n).length = (a.val.take n).length := by
    simp [a.property]; omega
  have ht : a.val.take n = a.val := by
    rw [List.take_of_length_le]; simp [a.property]
  rw [ne_comm, Ne, memcmpBytes_eq_zero_iff _ _ hl, ht]

/-- Inside the buffer, the test `0 != memcmp(&p[off], a, n)` reads the `n` bytes at `off` and
is true exactly when they are not the array `a`. -/
theorem differs_eq (p : List Nat) (off n : Nat) (a : Bytes n) (h : off + n ≤ p.length) :
    ((memcmp p off a.val n).andThen fun r => Access.ret (decide (0 ≠ r)))
      = ⟨span off n, some (decide ((p.drop off).take n ≠ a.val))⟩ := by
  have ha := memcmp_ne_zero_iff p off n a h
  simp only [Access.andThen, memcmp, if_pos h, Access.ret, List.append_nil]
  congr 2
  exact decide_eq_decide.mpr ha

/-- Result of the two-sided test `0 != memcmp(.., a, n) && 0 != memcmp(.., b, n)` inside the
buffer. -/
theorem mismatch_result (p : List Nat) (off n : Nat) (a b : Bytes n)
    (h : off + n ≤ p.length) :
    (Access.land
      ((memcmp p off a.val n).andThen fun r => Access.ret (decide (0 ≠ r)))
      ((memcmp p off b.val n).andThen fun r => Access.ret (decide (0 ≠ r)))).result
      = some (decide ((p.drop off).take n ≠ a.val ∧ (p.drop off).take n ≠ b.val)) := by
  rw [differs_eq p off n a h, differs_eq p off n b h]
  by_cases h1 : (p.drop off).take n = a.val
  · simp [Access.land, Access.andThen, Access.ret, h1]
  · simp [Access.land, Access.andThen, Access.ret, h1]

theorem Access.andThen_result {α β : Type} (x : Access α) (f : α → Access β) :
    (x.andThen f).result = x.result.bind fun a => (f a).result := by
  rcases x with ⟨r, _ | a⟩ <;> rfl

theorem mismatch_result_none (p : List Nat) (off n : Nat) (a b : List Nat)
    (h : ¬ off + n ≤ p.length) :
    (Access.land
      ((memcmp p off a n).andThen fun r => Access.ret (decide (0 ≠ r)))
      ((memcmp p off b n).andThen fun r => Access.ret (decide (0 ≠ r)))).result = none := by
  simp [Access.land, Access.andThen_result, memcmp, h]

theorem load_result (p : List Nat) (i : Nat) (h : i < p.length) :
    (load p i).result = some (p.getD i 0) := by
  simp [load, List.getD, List.getElem?_eq_getElem h]

theorem load_result_none (p : List Nat) (i : Nat) (h : ¬ i < p.length) :
    (load p i).result = none := by
  simp [load]; omega

/-- The value of the predicate on every state and buffer, by the same case analysis as the
code, with the bounds of each read made explicit. -/
theorem dest_addr_matches_result (k : FrameConsts) (m : nrf_drv_radio802154_pib_data_t)
    (p : List Nat) :
    (nrf_drv_radio802154_pib_dest_addr_matches k m p).result =
      if k.PAN_ID_OFFSET + 1 + PAN_ID_SIZE ≤ p.length then
        if destPan k p ≠ m.pan_id.val ∧ destPan k p ≠ BROADCAST_ADDRESS.val then some false
        else if k.DEST_ADDR_TYPE_OFFSET < p.length then
          if destMode k p = k.DEST_ADDR_TYPE_SHORT then
            if k.DEST_ADDR_OFFSET + 1 + SHORT_ADDRESS_SIZE ≤ p.length then
              some (decide (destAddr k p SHORT_ADDRESS_SIZE = m.short_addr.val ∨
                destAddr k p SHORT_ADDRESS_SIZE = BROADCAST_ADDRESS.val))
            else none
          else if destMode k p = k.DEST_ADDR_TYPE_EXTENDED then
            if k.DEST_ADDR_OFFSET + 1 + EXTENDED_ADDRESS_SIZE ≤ p.length then
              some (decide (destAddr k p EXTENDED_ADDRESS_SIZE = m.extended_addr.val))
            else none
          else some false
        else none
      else none := by
  unfold nrf_drv_radio802154_pib_dest_addr_matches
  rw [Access.andThen_result]
  by_cases hpan : k.PAN_ID_OFFSET + 1 + PAN_ID_SIZE ≤ p.length
  · rw [if_pos hpan, mismatch_result p (k.PAN_ID_OFFSET + 1) PAN_ID_SIZE m.pan_id
      BROADCAST_ADDRESS hpan]
    simp only [Option.some_bind]
    by_cases hmis : destPan k p ≠ m.pan_id.val ∧ destPan k p ≠ BROADCAST_ADDRESS.val
    · have hmis2 := hmis
      unfold destPan at hmis2
      rw [if_pos hmis]
      simp only [decide_eq_true hmis2, if_true, Access.ret]
    · have hmis2 := hmis
      unfold destPan at hmis2
      rw [if_neg hmis]
      simp only [decide_eq_false hmis2, Bool.false_eq_true, if_false]
      rw [Access.andThen_result]
      by_cases hmode : k.DEST_ADDR_TYPE_OFFSET < p.length
      · rw [if_pos hmode, load_result p _ hmode]
        simp only [Option.some_bind]
        change Access.result (if destMode k p = k.DEST_ADDR_TYPE_SHORT then _ else
          if destMode k p = k.DEST_ADDR_TYPE_EXTENDED then _ else _) = _
        by_cases hs : destMode k p = k.DEST_ADDR_TYPE_SHORT
        · rw [if_pos hs, if_pos hs, Access.andThen_result]
          by_cases hb : k.DEST_ADDR_OFFSET + 1 + SHORT_ADDRESS_SIZE ≤ p.length
          · rw [if_pos hb, mismatch_result p (k.DEST_ADDR_OFFSET + 1) SHORT_ADDRESS_SIZE
              m.short_addr BROADCAST_ADDRESS hb]
            simp only [Option.some_bind, destAddr]
            by_cases h1 : List.take SHORT_ADDRESS_SIZE (List.drop (k.DEST_ADDR_OFFSET + 1) p)
                = m.short_addr.val
            · simp [h1, Access.ret]
            · by_cases h2 : List.take SHORT_ADDRESS_SIZE
                  (List.drop (k.DEST_ADDR_OFFSET + 1) p) = BROADCAST_ADDRESS.val
              · simp [h1, h2, Access.ret]
              · simp [h1, h2, Access.ret]
          · rw [if_neg hb, mismatch_result_none p _ _ _ _ hb]
            rfl
        · rw [if_neg hs, if_neg hs]
          by_cases he : destMode k p = k.DEST_ADDR_TYPE_EXTENDED
          · rw [if_pos he, if_pos he, Access.andThen_result]
            by_cases hb : k.DEST_ADDR_OFFSET + 1 + EXTENDED_ADDRESS_SIZE ≤ p.length
            · have hz := memcmp_ne_zero_iff p (k.DEST_ADDR_OFFSET + 1) EXTENDED_ADDRESS_SIZE
                m.extended_addr hb
              rw [if_pos hb, memcmp_result _ _ _ _ hb]
              simp only [Option.some_bind, destAddr]
              by_cases h1 : List.take EXTENDED_ADDRESS_SIZE
                  (List.drop (k.DEST_ADDR_OFFSET + 1) p) = m.extended_addr.val
              · have h0 : ¬ (0 ≠ memcmpBytes (List.take EXTENDED_ADDRESS_SIZE
                    (List.drop (k.DEST_ADDR_OFFSET + 1) p))
                    (List.take EXTENDED_ADDRESS_SIZE m.extended_addr.val)) :=
                  fun hc => (hz.mp hc) h1
                rw [if_neg h0]
                simp [h1, Access.ret]
              · rw [if_pos (hz.mpr h1)]
                simp [h1, Access.ret]
            · rw [if_neg hb]
              simp [memcmp, hb]
          · rw [if_neg he, if_neg he]
            rfl
      · rw [if_neg hmode, load_result_none p _ hmode]
        rfl
  · rw [if_neg hpan, mismatch_result_none p _ _ _ _ hpan]
    rfl

/-! ## Which indices are read -/

theorem Access.mem_andThen_reads {α β : Type} (x : Access α) (f : α → Access β) (i : Nat)
    (h : i ∈ (x.andThen f).reads) : i ∈ x.reads ∨ ∃ a, i ∈ (f a).reads := by
  rcases x with ⟨r, _ | a⟩
  · exact Or.inl h
  · simp only [Access.andThen, List.mem_append] at h
    rcases h with h | h
    · exact Or.inl h
    · exact Or.inr ⟨a, h⟩

theorem Access.mem_land_reads (x y : Access Bool) (i : Nat)
    (h : i ∈ (Access.land x y).reads) : i ∈ x.reads ∨ i ∈ y.reads := by
  rcases Access.mem_andThen_reads _ _ _ h with h | ⟨b, h⟩
  · exact Or.inl h
  · cases b
    · simp [Access.ret] at h
    · exact Or.inr h

theorem mem_differs_reads (p : List Nat) (off : Nat) (a : List Nat) (n i : Nat)
    (h : i ∈ ((memcmp p off a n).andThen fun r => Access.ret (decide (0 ≠ r))).reads) :
    i ∈ span off n := by
  rcases Access.mem_andThen_reads _ _ _ h with h | ⟨b, h⟩
  · exact h
  · simp [Access.ret] at h

/-- Every index that the predicate reads lies in the PAN ID field at `PAN_ID_OFFSET + 1`, is
`DEST_ADDR_TYPE_OFFSET`, or lies in the address field at `DEST_ADDR_OFFSET + 1`. -/
theorem dest_addr_matches_reads_mem (k : FrameConsts) (m : nrf_drv_radio802154_pib_data_t)
    (p : List Nat) (i : Nat)
    (h : i ∈ (nrf_drv_radio802154_pib_dest_addr_matches k m p).reads) :
    i ∈ span (k.PAN_ID_OFFSET + 1) PAN_ID_SIZE ∨ i = k.DEST_ADDR_TYPE_OFFSET ∨
      i ∈ span (k.DEST_ADDR_OFFSET + 1) SHORT_ADDRESS_SIZE ∨
      i ∈ span (k.DEST_ADDR_OFFSET + 1) EXTENDED_ADDRESS_SIZE := by
  unfold nrf_drv_radio802154_pib_dest_addr_matches at h
  rcases Access.mem_andThen_reads _ _ _ h with h | ⟨b, h⟩
  · rcases Access.mem_land_reads _ _ _ h with h | h
    · exact Or.inl (mem_differs_reads _ _ _ _ _ h)
    · exact Or.inl (mem_differs_reads _ _ _ _ _ h)
  · cases b
    · simp only [Bool.false_eq_true, if_false] at h
      rcases Access.mem_andThen_reads _ _ _ h with h | ⟨v, h⟩
      · right; left
        simpa [load] using h
      · split at h
        · rcases Access.mem_andThen_reads _ _ _ h with h | ⟨c, h⟩
          · rcases Access.mem_land_reads _ _ _ h with h | h
            · exact Or.inr (Or.inr (Or.inl (mem_differs_reads _ _ _ _ _ h)))
            · exact Or.inr (Or.inr (Or.inl (mem_differs_reads _ _ _ _ _ h)))
          · cases c <;> simp [Access.ret] at h
        · split at h
          · rcases Access.mem_andThen_reads _ _ _ h with h | ⟨c, h⟩
            · exact Or.inr (Or.inr (Or.inr h))
            · split at h <;> simp [Access.ret] at h
          · simp [Access.ret] at h
    · simp [Access.ret] at h

/-- When the PAN ID field is inside the buffer and is neither the stored nor the broadcast
PAN ID, the predicate reads that field twice and nothing else. -/
theorem dest_addr_matches_reads_pan_reject (k : FrameConsts)
    (m : nrf_drv_radio802154_pib_data_t) (p : List Nat)
    (hpan : k.PAN_ID_OFFSET + 1 + PAN_ID_SIZE ≤ p.length)
    (h1 : destPan k p ≠ m.pan_id.val) (h2 : destPan k p ≠ BROADCAST_ADDRESS.val) :
    (nrf_drv_radio802154_pib_dest_addr_matches k m p).reads =
      span (k.PAN_ID_OFFSET + 1) PAN_ID_SIZE ++ span (k.PAN_ID_OFFSET + 1) PAN_ID_SIZE := by
  unfold nrf_drv_radio802154_pib_dest_addr_matches
  rw [differs_eq p (k.PAN_ID_OFFSET + 1) PAN_ID_SIZE m.pan_id hpan,
    differs_eq p (k.PAN_ID_OFFSET + 1) PAN_ID_SIZE BROADCAST_ADDRESS hpan]
  unfold destPan at h1 h2
  simp [Access.land, Access.andThen, Access.ret, h1, h2]

theorem differs_outside (p : List Nat) (off n : Nat) (a : List Nat)
    (h : ¬ off + n ≤ p.length) :
    ((memcmp p off a n).andThen fun r => Access.ret (decide (0 ≠ r))) = ⟨span off n, none⟩ := by
  simp [Access.andThen, memcmp, h]

theorem Access.andThen_reads_some {α β : Type} (x : Access α) (f : α → Access β) (a : α)
    (h : x.result = some a) : (x.andThen f).reads = x.reads ++ (f a).reads := by
  rcases x with ⟨r, v⟩
  subst h
  rfl

theorem Access.andThen_reads_none {α β : Type} (x : Access α) (f : α → Access β)
    (h : x.result = none) : (x.andThen f).reads = x.reads := by
  rcases x with ⟨r, v⟩
  subst h
  rfl

theorem Access.andThen_reads_of_nil {α β : Type} (x : Access α) (f : α → Access β)
    (hf : ∀ a, (f a).reads = []) : (x.andThen f).reads = x.reads := by
  rcases x with ⟨r, _ | a⟩
  · rfl
  · simp [Access.andThen, hf a]

theorem mismatch_reads (p : List Nat) (off n : Nat) (a b : Bytes n)
    (h : off + n ≤ p.length) :
    (Access.land
      ((memcmp p off a.val n).andThen fun r => Access.ret (decide (0 ≠ r)))
      ((memcmp p off b.val n).andThen fun r => Access.ret (decide (0 ≠ r)))).reads
      = span off n ++ (if (p.drop off).take n ≠ a.val then span off n else []) := by
  rw [differs_eq p off n a h, differs_eq p off n b h]
  by_cases h1 : (p.drop off).take n = a.val
  · simp [Access.land, Access.andThen, Access.ret, h1]
  · simp [Access.land, Access.andThen, Access.ret, h1]

theorem mismatch_reads_outside (p : List Nat) (off n : Nat) (a b : List Nat)
    (h : ¬ off + n ≤ p.length) :
    (Access.land
      ((memcmp p off a n).andThen fun r => Access.ret (decide (0 ≠ r)))
      ((memcmp p off b n).andThen fun r => Access.ret (decide (0 ≠ r)))).reads
      = span off n := by
  rw [differs_outside p off n a h]
  rfl

/-- The sequence of indices that the predicate reads, on every state and buffer.  After a
read outside the buffer nothing further is recorded. -/
theorem dest_addr_matches_reads (k : FrameConsts) (m : nrf_drv_radio802154_pib_data_t)
    (p : List Nat) :
    (nrf_drv_radio802154_pib_dest_addr_matches k m p).reads =
      span (k.PAN_ID_OFFSET + 1) PAN_ID_SIZE ++
      (if k.PAN_ID_OFFSET + 1 + PAN_ID_SIZE ≤ p.length then
        (if destPan k p ≠ m.pan_id.val then span (k.PAN_ID_OFFSET + 1) PAN_ID_SIZE else []) ++
        (if destPan k p ≠ m.pan_id.val ∧ destPan k p ≠ BROADCAST_ADDRESS.val then []
         else
          [k.DEST_ADDR_TYPE_OFFSET] ++
          (if k.DEST_ADDR_TYPE_OFFSET < p.length then
            (if destMode k p = k.DEST_ADDR_TYPE_SHORT then
              span (k.DEST_ADDR_OFFSET + 1) SHORT_ADDRESS_SIZE ++
              (if k.DEST_ADDR_OFFSET + 1 + SHORT_ADDRESS_SIZE ≤ p.length ∧
                  destAddr k p SHORT_ADDRESS_SIZE ≠ m.short_addr.val then
                span (k.DEST_ADDR_OFFSET + 1) SHORT_ADDRESS_SIZE
               else [])
             else if destMode k p = k.DEST_ADDR_TYPE_EXTENDED then
              span (k.DEST_ADDR_OFFSET + 1) EXTENDED_ADDRESS_SIZE
             else [])
           else []))
       else []) := by
  unfold nrf_drv_radio802154_pib_dest_addr_matches
  by_cases hpan : k.PAN_ID_OFFSET + 1 + PAN_ID_SIZE ≤ p.length
  · rw [if_pos hpan, Access.andThen_reads_some _ _ _
      (mismatch_result p (k.PAN_ID_OFFSET + 1) PAN_ID_SIZE m.pan_id BROADCAST_ADDRESS hpan),
      mismatch_reads p (k.PAN_ID_OFFSET + 1) PAN_ID_SIZE m.pan_id BROADCAST_ADDRESS hpan,
      List.append_assoc]
    congr 2
    change _ = if destPan k p ≠ m.pan_id.val ∧ destPan k p ≠ BROADCAST_ADDRESS.val then _ else _
    by_cases hmis : destPan k p ≠ m.pan_id.val ∧ destPan k p ≠ BROADCAST_ADDRESS.val
    · have hmis2 := hmis
      unfold destPan at hmis2
      rw [if_pos hmis]
      simp only [decide_eq_true hmis2, if_true, Access.ret]
    · have hmis2 := hmis
      unfold destPan at hmis2
      rw [if_neg hmis]
      simp only [decide_eq_false hmis2, Bool.false_eq_true, if_false]
      by_cases hmode : k.DEST_ADDR_TYPE_OFFSET < p.length
      · rw [if_pos hmode, Access.andThen_reads_some _ _ _ (load_result p _ hmode)]
        congr 1
        change Access.reads (if destMode k p = k.DEST_ADDR_TYPE_SHORT then _ else
          if destMode k p = k.DEST_ADDR_TYPE_EXTENDED then _ else _) = _
        by_cases hs : destMode k p = k.DEST_ADDR_TYPE_SHORT
        · rw [if_pos hs, if_pos hs]
          rw [Access.andThen_reads_of_nil _ _ (by intro a; cases a <;> rfl)]
          by_cases hb : k.DEST_ADDR_OFFSET + 1 + SHORT_ADDRESS_SIZE ≤ p.length
          · rw [mismatch_reads p (k.DEST_ADDR_OFFSET + 1) SHORT_ADDRESS_SIZE m.short_addr
              BROADCAST_ADDRESS hb]
            congr 1
            unfold destAddr
            by_cases h3 : List.take SHORT_ADDRESS_SIZE (List.drop (k.DEST_ADDR_OFFSET + 1) p)
                = m.short_addr.val
            · rw [if_neg (fun h => h h3), if_neg (fun h => h.2 h3)]
            · rw [if_pos h3, if_pos ⟨hb, h3⟩]
          · rw [mismatch_reads_outside p _ _ _ _ hb, if_neg (fun h => hb h.1),
              List.append_nil]
        · rw [if_neg hs, if_neg hs]
          by_cases he : destMode k p = k.DEST_ADDR_TYPE_EXTENDED
          · rw [if_pos he, if_pos he]
            rw [Access.andThen_reads_of_nil _ _ (by intro a; split <;> rfl)]
            rfl
          · rw [if_neg he, if_neg he]
            rfl
      · rw [if_neg hmode, Access.andThen_reads_none _ _ (load_result_none p _ hmode)]
        rfl
  · rw [if_neg hpan, Access.andThen_reads_none _ _ (mismatch_result_none p _ _ _ _ hpan),
      mismatch_reads_outside p _ _ _ _ hpan, List.append_nil]

theorem mem_span (off n i : Nat) : i ∈ span off n ↔ off ≤ i ∧ i < off + n := by
  simp only [span, List.mem_map, List.mem_range]
  constructor
  · rintro ⟨j, hj, rfl⟩
    omega
  · rintro ⟨h1, h2⟩
    exact ⟨i - off, by omega, by omega⟩

theorem mem_of_mem_ite_nil_right {c : Prop} [Decidable c] (l : List Nat) (i : Nat)
    (h : i ∈ (if c then l else [])) : c ∧ i ∈ l := by
  by_cases hc : c
  · rw [if_pos hc] at h
    exact ⟨hc, h⟩
  · rw [if_neg hc] at h
    exact absurd h (List.not_mem_nil i)

theorem mem_of_mem_ite_nil_left {c : Prop} [Decidable c] (l : List Nat) (i : Nat)
    (h : i ∈ (if c then [] else l)) : ¬ c ∧ i ∈ l := by
  by_cases hc : c
  · rw [if_pos hc] at h
    exact absurd h (List.not_mem_nil i)
  · rw [if_neg hc] at h
    exact ⟨hc, h⟩

theorem span_lt (off n len i : Nat) (h : off + n ≤ len) (hi : i ∈ span off n) : i < len := by
  rw [mem_span] at hi
  omega

/-! ## Field lengths and bounds -/

theorem destPan_bound (k : FrameConsts) (p : List Nat)
    (h : (destPan k p).length = PAN_ID_SIZE) : k.PAN_ID_OFFSET + 1 + PAN_ID_SIZE ≤ p.length := by
  simp only [destPan, List.length_take, List.length_drop, PAN_ID_SIZE] at h ⊢
  omega

theorem destAddr_bound (k : FrameConsts) (p : List Nat) (n : Nat) (hn : 0 < n)
    (h : (destAddr k p n).length = n) : k.DEST_ADDR_OFFSET + 1 + n ≤ p.length := by
  simp only [destAddr, List.length_take, List.length_drop] at h
  omega

/-! ## The byte-array setters -/

theorem memcpy_result (n : Nat) (p : List Nat) (h : n ≤ p.length) :
    (memcpy n p).result = some ⟨p.take n, by simp [h]⟩ := by
  simp [memcpy, h]

theorem pan_id_set_result (p : List Nat) (m : nrf_drv_radio802154_pib_data_t)
    (h : PAN_ID_SIZE ≤ p.length) :
    (nrf_drv_radio802154_pib_pan_id_set p m).result =
      some { m with pan_id := ⟨p.take PAN_ID_SIZE, by simp [h]⟩ } := by
  simp [nrf_drv_radio802154_pib_pan_id_set, Access.andThen_result, memcpy_result _ _ h,
    Access.ret]

theorem short_address_set_result (p : List Nat) (m : nrf_drv_radio802154_pib_data_t)
    (h : SHORT_ADDRESS_SIZE ≤ p.length) :
    (nrf_drv_radio802154_pib_short_address_set p m).result =
      some { m with short_addr := ⟨p.take SHORT_ADDRESS_SIZE, by simp [h]⟩ } := by
  simp [nrf_drv_radio802154_pib_short_address_set, Access.andThen_result,
    memcpy_result _ _ h, Access.ret]

theorem extended_address_set_result (p : List Nat) (m : nrf_drv_radio802154_pib_data_t)
    (h : EXTENDED_ADDRESS_SIZE ≤ p.length) :
    (nrf_drv_radio802154_pib_extended_address_set p m).result =
      some { m with extended_addr := ⟨p.take EXTENDED_ADDRESS_SIZE, by simp [h]⟩ } := by
  simp [nrf_drv_radio802154_pib_extended_address_set, Access.andThen_result,
    memcpy_result _ _ h, Access.ret]

/-! ## The destination-match predicate -/

/-- C1: for every state and every buffer long enough for the fields its mode selects, the
predicate returns true exactly when the destination PAN ID is the stored or the broadcast one
and either the mode is short and the 2-byte destination is the stored short address or the
broadcast address, or the mode is extended and the 8-byte destination is the stored extended
address.  The two case labels of the `switch` are distinct constants. -/
theorem dest_addr_matches_characterisation (k : FrameConsts)
    (m : nrf_drv_radio802154_pib_data_t) (p : List Nat)
    (hcase : k.DEST_ADDR_TYPE_SHORT ≠ k.DEST_ADDR_TYPE_EXTENDED)
    (hpan : k.PAN_ID_OFFSET + 1 + PAN_ID_SIZE ≤ p.length)
    (hmode : k.DEST_ADDR_TYPE_OFFSET < p.length)
    (hshort : destMode k p = k.DEST_ADDR_TYPE_SHORT →
      k.DEST_ADDR_OFFSET + 1 + SHORT_ADDRESS_SIZE ≤ p.length)
    (hext : destMode k p = k.DEST_ADDR_TYPE_EXTENDED →
      k.DEST_ADDR_OFFSET + 1 + EXTENDED_ADDRESS_SIZE ≤ p.length) :
    (nrf_drv_radio802154_pib_dest_addr_matches k m p).result = some (decide (
      (destPan k p = m.pan_id.val ∨ destPan k p = [0xff, 0xff]) ∧
      ((destMode k p = k.DEST_ADDR_TYPE_SHORT ∧
          (destAddr k p 2 = m.short_addr.val ∨ destAddr k p 2 = [0xff, 0xff])) ∨
        (destMode k p = k.DEST_ADDR_TYPE_EXTENDED ∧
          destAddr k p 8 = m.extended_addr.val)))) := by
  rw [dest_addr_matches_result, if_pos hpan, if_pos hmode]
  by_cases hmis : destPan k p ≠ m.pan_id.val ∧ destPan k p ≠ BROADCAST_ADDRESS.val
  · rw [if_pos hmis]
    have h1 := hmis.1
    have h2 : destPan k p ≠ [0xff, 0xff] := hmis.2
    simp [h1, h2]
  · rw [if_neg hmis]
    have hok : destPan k p = m.pan_id.val ∨ destPan k p = [0xff, 0xff] := by
      by_contra hc
      exact hmis ⟨fun h => hc (Or.inl h), fun h => hc (Or.inr h)⟩
    by_cases hs : destMode k p = k.DEST_ADDR_TYPE_SHORT
    · have hne : ¬ destMode k p = k.DEST_ADDR_TYPE_EXTENDED := fun h => hcase (hs.symm.trans h)
      rw [if_pos hs, if_pos (hshort hs)]
      simp only [hok, hne, true_and, false_and, or_false]
      simp only [hs, true_and]
      rfl
    · rw [if_neg hs]
      by_cases he : destMode k p = k.DEST_ADDR_TYPE_EXTENDED
      · rw [if_pos he, if_pos (hext he)]
        simp only [hok, hs, true_and, false_and, false_or]
        simp only [he, true_and]
      · rw [if_neg he]
        simp [hs, he]

/-- Witness for C1: a short-mode frame for the stored PAN ID and short address. -/
theorem dest_addr_matches_characterisation_witness :
    (nrf_drv_radio802154_pib_dest_addr_matches sampleConsts sampleState
      (sampleFrame 0x88 1 [0x34, 0x12] [0x78, 0x56])).result = some true :=
  dest_addr_matches_characterisation sampleConsts sampleState
    (sampleFrame 0x88 1 [0x34, 0x12] [0x78, 0x56])
    (by decide) (by decide) (by decide) (by decide) (by decide)

/-- C2: when the destination PAN ID field of the buffer is neither the stored PAN ID nor
`{0xff, 0xff}`, the predicate returns false whatever the mode bits and the address bytes are,
and it reads nothing but the two bytes of that field. -/
theorem dest_addr_matches_pan_short_circuit (k : FrameConsts)
    (m : nrf_drv_radio802154_pib_data_t) (p : List Nat)
    (hpan : k.PAN_ID_OFFSET + 1 + PAN_ID_SIZE ≤ p.length)
    (h1 : destPan k p ≠ m.pan_id.val) (h2 : destPan k p ≠ [0xff, 0xff]) :
    (nrf_drv_radio802154_pib_dest_addr_matches k m p).result = some false ∧
    (nrf_drv_radio802154_pib_dest_addr_matches k m p).reads =
      span (k.PAN_ID_OFFSET + 1) PAN_ID_SIZE ++ span (k.PAN_ID_OFFSET + 1) PAN_ID_SIZE := by
  have h2b : destPan k p ≠ BROADCAST_ADDRESS.val := h2
  refine ⟨?_, dest_addr_matches_reads_pan_reject k m p hpan h1 h2b⟩
  rw [dest_addr_matches_result, if_pos hpan, if_pos ⟨h1, h2b⟩]

/-- Witness for C2: a foreign PAN ID with the stored short address, with the broadcast short
address and with the stored extended address. -/
theorem dest_addr_matches_pan_short_circuit_witness :
    ((nrf_drv_radio802154_pib_dest_addr_matches sampleConsts sampleState
        (sampleFrame 0x88 1 [0x35, 0x12] [0x78, 0x56])).result = some false ∧
      (nrf_drv_radio802154_pib_dest_addr_matches sampleConsts sampleState
        (sampleFrame 0x88 1 [0x35, 0x12] [0x78, 0x56])).reads = [4, 5, 4, 5]) ∧
    (nrf_drv_radio802154_pib_dest_addr_matches sampleConsts sampleState
        (sampleFrame 0x88 1 [0x34, 0x13] [0xff, 0xff])).result = some false ∧
    (nrf_drv_radio802154_pib_dest_addr_matches sampleConsts sampleState
        (sampleFrame 0x8c 1 [0x00, 0x00] [1, 2, 3, 4, 5, 6, 7, 8])).result = some false :=
  ⟨dest_addr_matches_pan_short_circuit sampleConsts sampleState
      (sampleFrame 0x88 1 [0x35, 0x12] [0x78, 0x56]) (by decide) (by decide) (by decide),
    (dest_addr_matches_pan_short_circuit sampleConsts sampleState
      (sampleFrame 0x88 1 [0x34, 0x13] [0xff, 0xff]) (by decide) (by decide) (by decide)).1,
    (dest_addr_matches_pan_short_circuit sampleConsts sampleState
      (sampleFrame 0x8c 1 [0x00, 0x00] [1, 2, 3, 4, 5, 6, 7, 8])
      (by decide) (by decide) (by decide)).1⟩

/-- C3: after `pan_id_set(p)` and `short_address_set(s)`, in either order, from any state, a
short-mode frame with destination PAN ID `p` and destination short address `d` is matched
exactly when `d = s` or `d = {0xff, 0xff}`. -/
theorem set_then_match_short (k : FrameConsts) (m : nrf_drv_radio802154_pib_data_t)
    (p s d buf : List Nat) (hp : p.length = 2) (hs : s.length = 2) (hd : d.length = 2)
    (hmode : k.DEST_ADDR_TYPE_OFFSET < buf.length)
    (hP : destPan k buf = p) (hM : destMode k buf = k.DEST_ADDR_TYPE_SHORT)
    (hD : destAddr k buf 2 = d) :
    (((nrf_drv_radio802154_pib_pan_id_set p m).andThen
          (nrf_drv_radio802154_pib_short_address_set s)).andThen
        fun m1 => nrf_drv_radio802154_pib_dest_addr_matches k m1 buf).result
      = some (decide (d = s ∨ d = [0xff, 0xff])) ∧
    (((nrf_drv_radio802154_pib_short_address_set s m).andThen
          (nrf_drv_radio802154_pib_pan_id_set p)).andThen
        fun m1 => nrf_drv_radio802154_pib_dest_addr_matches k m1 buf).result
      = some (decide (d = s ∨ d = [0xff, 0xff])) := by
  have hp2 : PAN_ID_SIZE ≤ p.length := by simp [hp]
  have hs2 : SHORT_ADDRESS_SIZE ≤ s.length := by simp [hs]
  have hpt : p.take PAN_ID_SIZE = p := List.take_of_length_le (by simp [hp])
  have hst : s.take SHORT_ADDRESS_SIZE = s := List.take_of_length_le (by simp [hs])
  have hpan : k.PAN_ID_OFFSET + 1 + PAN_ID_SIZE ≤ buf.length :=
    destPan_bound k buf (by rw [hP]; exact hp)
  have hdst : k.DEST_ADDR_OFFSET + 1 + SHORT_ADDRESS_SIZE ≤ buf.length :=
    destAddr_bound k buf 2 (by decide) (by rw [hD]; exact hd)
  constructor
  · rw [Access.andThen_result, Access.andThen_result, pan_id_set_result p m hp2,
      Option.some_bind, short_address_set_result s _ hs2, Option.some_bind,
      dest_addr_matches_result, if_pos hpan, if_pos hmode, if_pos hM, if_pos hdst]
    simp only [hpt, hst, hP, hD]
    rw [if_neg (fun h => h.1 rfl)]
    rfl
  · rw [Access.andThen_result, Access.andThen_result, short_address_set_result s m hs2,
      Option.some_bind, pan_id_set_result p _ hp2, Option.some_bind,
      dest_addr_matches_result, if_pos hpan, if_pos hmode, if_pos hM, if_pos hdst]
    simp only [hpt, hst, hP, hD]
    rw [if_neg (fun h => h.1 rfl)]
    rfl

/-- Witness for C3: the example of the specification from the state after initialization,
`p = {0x34, 0x12}` and `s = {0x78, 0x56}`; the destination `{0x78, 0x56}` is matched and the
destination `{0x99, 0x99}` is not. -/
theorem set_then_match_short_witness :
    (((nrf_drv_radio802154_pib_pan_id_set [0x34, 0x12]
          (nrf_drv_radio802154_pib_init sampleState)).andThen
          (nrf_drv_radio802154_pib_short_address_set [0x78, 0x56])).andThen
        fun m1 => nrf_drv_radio802154_pib_dest_addr_matches sampleConsts m1
          (sampleFrame 0x88 1 [0x34, 0x12] [0x78, 0x56])).result = some true ∧
    (((nrf_drv_radio802154_pib_short_address_set [0x78, 0x56]
          (nrf_drv_radio802154_pib_init sampleState)).andThen
          (nrf_drv_radio802154_pib_pan_id_set [0x34, 0x12])).andThen
        fun m1 => nrf_drv_radio802154_pib_dest_addr_matches sampleConsts m1
          (sampleFrame 0x88 1 [0x34, 0x12] [0x99, 0x99])).result = some false :=
  ⟨(set_then_match_short sampleConsts (nrf_drv_radio802154_pib_init sampleState)
      [0x34, 0x12] [0x78, 0x56] [0x78, 0x56] (sampleFrame 0x88 1 [0x34, 0x12] [0x78, 0x56])
      rfl rfl rfl (by decide) (by decide) (by decide) (by decide)).1,
    (set_then_match_short sampleConsts (nrf_drv_radio802154_pib_init sampleState)
      [0x34, 0x12] [0x78, 0x56] [0x99, 0x99] (sampleFrame 0x88 1 [0x34, 0x12] [0x99, 0x99])
      rfl rfl rfl (by decide) (by decide) (by decide) (by decide)).2⟩

/-- C4: a frame whose destination PAN ID field is `{0xff, 0xff}` and whose address matches
(short mode with the stored short address or `{0xff, 0xff}`, or extended mode with the stored
extended address) is matched whatever PAN ID is stored. -/
theorem dest_addr_matches_broadcast_pan (k : FrameConsts)
    (m : nrf_drv_radio802154_pib_data_t) (p : List Nat)
    (hcase : k.DEST_ADDR_TYPE_SHORT ≠ k.DEST_ADDR_TYPE_EXTENDED)
    (hmode : k.DEST_ADDR_TYPE_OFFSET < p.length)
    (hP : destPan k p = [0xff, 0xff])
    (hA : (destMode k p = k.DEST_ADDR_TYPE_SHORT ∧
            (destAddr k p 2 = m.short_addr.val ∨ destAddr k p 2 = [0xff, 0xff])) ∨
          (destMode k p = k.DEST_ADDR_TYPE_EXTENDED ∧
            destAddr k p 8 = m.extended_addr.val)) :
    (nrf_drv_radio802154_pib_dest_addr_matches k m p).result = some true := by
  have hpan : k.PAN_ID_OFFSET + 1 + PAN_ID_SIZE ≤ p.length :=
    destPan_bound k p (by rw [hP]; rfl)
  have hbc : ¬ (destPan k p ≠ m.pan_id.val ∧ destPan k p ≠ BROADCAST_ADDRESS.val) :=
    fun h => h.2 hP
  rw [dest_addr_matches_result, if_pos hpan, if_neg hbc, if_pos hmode]
  rcases hA with ⟨hM, hD⟩ | ⟨hM, hD⟩
  · have hdst : k.DEST_ADDR_OFFSET + 1 + SHORT_ADDRESS_SIZE ≤ p.length := by
      apply destAddr_bound k p 2 (by decide)
      rcases hD with hD | hD
      · rw [hD]; exact m.short_addr.property
      · rw [hD]; rfl
    have hD2 : destAddr k p SHORT_ADDRESS_SIZE = m.short_addr.val ∨
        destAddr k p SHORT_ADDRESS_SIZE = BROADCAST_ADDRESS.val := hD
    rw [if_pos hM, if_pos hdst, decide_eq_true hD2]
  · have hdst : k.DEST_ADDR_OFFSET + 1 + EXTENDED_ADDRESS_SIZE ≤ p.length := by
      apply destAddr_bound k p 8 (by decide)
      rw [hD]; exact m.extended_addr.property
    have hns : ¬ destMode k p = k.DEST_ADDR_TYPE_SHORT := fun h => hcase (h.symm.trans hM)
    have hD2 : destAddr k p EXTENDED_ADDRESS_SIZE = m.extended_addr.val := hD
    rw [if_neg hns, if_pos hM, if_pos hdst, decide_eq_true hD2]

/-- Witness for C4: stored PAN ID `{0x34, 0x12}`, frame for the broadcast PAN ID and the stored
extended address. -/
theorem dest_addr_matches_broadcast_pan_witness :
    (nrf_drv_radio802154_pib_dest_addr_matches sampleConsts sampleState
      (sampleFrame 0x8c 1 [0xff, 0xff] [1, 2, 3, 4, 5, 6, 7, 8])).result = some true :=
  dest_addr_matches_broadcast_pan sampleConsts sampleState
    (sampleFrame 0x8c 1 [0xff, 0xff] [1, 2, 3, 4, 5, 6, 7, 8])
    (by decide) (by decide) (by decide) (by decide)

/-- C5: a short-mode frame whose destination short address is `{0xff, 0xff}` and whose
destination PAN ID field is the stored PAN ID or `{0xff, 0xff}` is matched whatever short
address is stored. -/
theorem dest_addr_matches_broadcast_short (k : FrameConsts)
    (m : nrf_drv_radio802154_pib_data_t) (p : List Nat)
    (hmode : k.DEST_ADDR_TYPE_OFFSET < p.length)
    (hP : destPan k p = m.pan_id.val ∨ destPan k p = [0xff, 0xff])
    (hM : destMode k p = k.DEST_ADDR_TYPE_SHORT)
    (hD : destAddr k p 2 = [0xff, 0xff]) :
    (nrf_drv_radio802154_pib_dest_addr_matches k m p).result = some true := by
  have hpan : k.PAN_ID_OFFSET + 1 + PAN_ID_SIZE ≤ p.length := by
    apply destPan_bound k p
    rcases hP with hP | hP
    · rw [hP]; exact m.pan_id.property
    · rw [hP]; rfl
  have hok : ¬ (destPan k p ≠ m.pan_id.val ∧ destPan k p ≠ BROADCAST_ADDRESS.val) := by
    rintro ⟨h1, h2⟩
    rcases hP with hP | hP
    · exact h1 hP
    · exact h2 hP
  have hdst : k.DEST_ADDR_OFFSET + 1 + SHORT_ADDRESS_SIZE ≤ p.length :=
    destAddr_bound k p 2 (by decide) (by rw [hD]; rfl)
  have hD2 : destAddr k p SHORT_ADDRESS_SIZE = m.short_addr.val ∨
      destAddr k p SHORT_ADDRESS_SIZE = BROADCAST_ADDRESS.val := Or.inr hD
  rw [dest_addr_matches_result, if_pos hpan, if_neg hok, if_pos hmode, if_pos hM, if_pos hdst,
    decide_eq_true hD2]

/-- Witness for C5: broadcast PAN ID and broadcast short address against a state that stores
neither. -/
theorem dest_addr_matches_broadcast_short_witness :
    (nrf_drv_radio802154_pib_dest_addr_matches sampleConsts sampleState
      (sampleFrame 0x88 1 [0xff, 0xff] [0xff, 0xff])).result = some true :=
  dest_addr_matches_broadcast_short sampleConsts sampleState
    (sampleFrame 0x88 1 [0xff, 0xff] [0xff, 0xff])
    (by decide) (by decide) (by decide) (by decide)

/-- C6: an extended-mode frame whose 8-byte destination address is not the stored extended
address is not matched, whatever its destination PAN ID and whatever the other stored
attributes are. -/
theorem dest_addr_matches_extended_exact (k : FrameConsts)
    (m : nrf_drv_radio802154_pib_data_t) (p : List Nat)
    (hcase : k.DEST_ADDR_TYPE_SHORT ≠ k.DEST_ADDR_TYPE_EXTENDED)
    (hpan : k.PAN_ID_OFFSET + 1 + PAN_ID_SIZE ≤ p.length)
    (hmode : k.DEST_ADDR_TYPE_OFFSET < p.length)
    (hdst : k.DEST_ADDR_OFFSET + 1 + EXTENDED_ADDRESS_SIZE ≤ p.length)
    (hM : destMode k p = k.DEST_ADDR_TYPE_EXTENDED)
    (hD : destAddr k p 8 ≠ m.extended_addr.val) :
    (nrf_drv_radio802154_pib_dest_addr_matches k m p).result = some false := by
  have hns : ¬ destMode k p = k.DEST_ADDR_TYPE_SHORT := fun h => hcase (h.symm.trans hM)
  have hD2 : ¬ destAddr k p EXTENDED_ADDRESS_SIZE = m.extended_addr.val := hD
  rw [dest_addr_matches_result, if_pos hpan, if_pos hmode, if_neg hns, if_pos hM, if_pos hdst,
    decide_eq_false hD2]
  split <;> rfl

/-- Witness for C6: stored PAN ID, extended mode, destination differing from the stored
extended address in the lowest bit of its last byte; and broadcast PAN ID with the all-`0xff`
destination; and a destination that begins with the stored short address. -/
theorem dest_addr_matches_extended_exact_witness :
    (nrf_drv_radio802154_pib_dest_addr_matches sampleConsts sampleState
      (sampleFrame 0x8c 1 [0x34, 0x12] [1, 2, 3, 4, 5, 6, 7, 9])).result = some false ∧
    (nrf_drv_radio802154_pib_dest_addr_matches sampleConsts sampleState
      (sampleFrame 0x8c 1 [0xff, 0xff]
        [0xff, 0xff, 0xff, 0xff, 0xff, 0xff, 0xff, 0xff])).result = some false ∧
    (nrf_drv_radio802154_pib_dest_addr_matches sampleConsts sampleState
      (sampleFrame 0x8c 1 [0x34, 0x12] [0x78, 0x56, 3, 4, 5, 6, 7, 8])).result = some false :=
  ⟨dest_addr_matches_extended_exact sampleConsts sampleState
      (sampleFrame 0x8c 1 [0x34, 0x12] [1, 2, 3, 4, 5, 6, 7, 9])
      (by decide) (by decide) (by decide) (by decide) (by decide) (by decide),
    dest_addr_matches_extended_exact sampleConsts sampleState
      (sampleFrame 0x8c 1 [0xff, 0xff] [0xff, 0xff, 0xff, 0xff, 0xff, 0xff, 0xff, 0xff])
      (by decide) (by decide) (by decide) (by decide) (by decide) (by decide),
    dest_addr_matches_extended_exact sampleConsts sampleState
      (sampleFrame 0x8c 1 [0x34, 0x12] [0x78, 0x56, 3, 4, 5, 6, 7, 8])
      (by decide) (by decide) (by decide) (by decide) (by decide) (by decide)⟩

/-- C7: a buffer whose masked mode bits are neither `DEST_ADDR_TYPE_SHORT` nor
`DEST_ADDR_TYPE_EXTENDED` is not matched, whatever its PAN ID field and address bytes are. -/
theorem dest_addr_matches_other_mode (k : FrameConsts)
    (m : nrf_drv_radio802154_pib_data_t) (p : List Nat)
    (hpan : k.PAN_ID_OFFSET + 1 + PAN_ID_SIZE ≤ p.length)
    (hmode : k.DEST_ADDR_TYPE_OFFSET < p.length)
    (hs : destMode k p ≠ k.DEST_ADDR_TYPE_SHORT)
    (he : destMode k p ≠ k.DEST_ADDR_TYPE_EXTENDED) :
    (nrf_drv_radio802154_pib_dest_addr_matches k m p).result = some false := by
  rw [dest_addr_matches_result, if_pos hpan, if_pos hmode, if_neg hs, if_neg he]
  split <;> rfl

/-- Witness for C7: mode bits `0x00` (no address) and `0x04` (reserved) on frames that carry
the stored PAN ID and the stored short address, or the broadcast values. -/
theorem dest_addr_matches_other_mode_witness :
    (nrf_drv_radio802154_pib_dest_addr_matches sampleConsts sampleState
      (sampleFrame 0x80 1 [0x34, 0x12] [0x78, 0x56])).result = some false ∧
    (nrf_drv_radio802154_pib_dest_addr_matches sampleConsts sampleState
      (sampleFrame 0x84 1 [0xff, 0xff] [0xff, 0xff])).result = some false :=
  ⟨dest_addr_matches_other_mode sampleConsts sampleState
      (sampleFrame 0x80 1 [0x34, 0x12] [0x78, 0x56])
      (by decide) (by decide) (by decide) (by decide),
    dest_addr_matches_other_mode sampleConsts sampleState
      (sampleFrame 0x84 1 [0xff, 0xff] [0xff, 0xff])
      (by decide) (by decide) (by decide) (by decide)⟩

/-- C8, as stated, fails: in the layout `sampleConsts` the predicate reads the buffer at index
`DEST_ADDR_TYPE_OFFSET` and never at `DEST_ADDR_TYPE_OFFSET + 1`; a frame whose byte at
`DEST_ADDR_TYPE_OFFSET` has the short-mode bits and whose byte at `DEST_ADDR_TYPE_OFFSET + 1`
has the mode bits of "no address" is matched as a short-mode frame, and it stops being matched
when the byte at `DEST_ADDR_TYPE_OFFSET` alone is changed. -/
theorem mode_byte_index_counterexample :
    sampleConsts.DEST_ADDR_TYPE_OFFSET ∈
      (nrf_drv_radio802154_pib_dest_addr_matches sampleConsts sampleState
        (sampleFrame 0x88 0x80 [0x34, 0x12] [0x78, 0x56])).reads ∧
    sampleConsts.DEST_ADDR_TYPE_OFFSET + 1 ∉
      (nrf_drv_radio802154_pib_dest_addr_matches sampleConsts sampleState
        (sampleFrame 0x88 0x80 [0x34, 0x12] [0x78, 0x56])).reads ∧
    (sampleFrame 0x88 0x80 [0x34, 0x12] [0x78, 0x56]).getD
        (sampleConsts.DEST_ADDR_TYPE_OFFSET + 1) 0 &&& sampleConsts.DEST_ADDR_TYPE_MASK = 0 ∧
    (nrf_drv_radio802154_pib_dest_addr_matches sampleConsts sampleState
        (sampleFrame 0x88 0x80 [0x34, 0x12] [0x78, 0x56])).result = some true ∧
    (nrf_drv_radio802154_pib_dest_addr_matches sampleConsts sampleState
        (sampleFrame 0x80 0x80 [0x34, 0x12] [0x78, 0x56])).result = some false ∧
    (nrf_drv_radio802154_pib_dest_addr_matches sampleConsts sampleState
        (sampleFrame 0x88 0x88 [0x34, 0x12] [0x78, 0x56])).result = some true := by
  decide

/-- C8, amended: the destination PAN ID is read at `PAN_ID_OFFSET + 1` and the destination
address at `DEST_ADDR_OFFSET + 1`, while the mode byte is read at index
`DEST_ADDR_TYPE_OFFSET` itself, and the predicate reads no other index.  On every state and
buffer: every index read lies in the 2-byte PAN ID field, is `DEST_ADDR_TYPE_OFFSET`, or lies
in the address field, of 2 bytes in short mode and of 8 bytes in extended mode; the PAN ID
field is always read; a frame for a foreign PAN ID is read in that field only; and once the
PAN ID is accepted the mode byte is read and then exactly the address field of the mode. -/
theorem dest_addr_matches_field_indices (k : FrameConsts)
    (m : nrf_drv_radio802154_pib_data_t) (p : List Nat) :
    (∀ i ∈ (nrf_drv_radio802154_pib_dest_addr_matches k m p).reads,
      i ∈ span (k.PAN_ID_OFFSET + 1) PAN_ID_SIZE ∨ i = k.DEST_ADDR_TYPE_OFFSET ∨
      (destMode k p = k.DEST_ADDR_TYPE_SHORT ∧
        i ∈ span (k.DEST_ADDR_OFFSET + 1) SHORT_ADDRESS_SIZE) ∨
      (destMode k p ≠ k.DEST_ADDR_TYPE_SHORT ∧ destMode k p = k.DEST_ADDR_TYPE_EXTENDED ∧
        i ∈ span (k.DEST_ADDR_OFFSET + 1) EXTENDED_ADDRESS_SIZE)) ∧
    (∀ i ∈ span (k.PAN_ID_OFFSET + 1) PAN_ID_SIZE,
      i ∈ (nrf_drv_radio802154_pib_dest_addr_matches k m p).reads) ∧
    (k.PAN_ID_OFFSET + 1 + PAN_ID_SIZE ≤ p.length →
      destPan k p ≠ m.pan_id.val → destPan k p ≠ [0xff, 0xff] →
      (nrf_drv_radio802154_pib_dest_addr_matches k m p).reads =
        span (k.PAN_ID_OFFSET + 1) PAN_ID_SIZE ++ span (k.PAN_ID_OFFSET + 1) PAN_ID_SIZE) ∧
    (k.PAN_ID_OFFSET + 1 + PAN_ID_SIZE ≤ p.length →
      (destPan k p = m.pan_id.val ∨ destPan k p = [0xff, 0xff]) →
      k.DEST_ADDR_TYPE_OFFSET ∈ (nrf_drv_radio802154_pib_dest_addr_matches k m p).reads ∧
      (k.DEST_ADDR_TYPE_OFFSET < p.length → destMode k p = k.DEST_ADDR_TYPE_SHORT →
        ∀ i ∈ span (k.DEST_ADDR_OFFSET + 1) SHORT_ADDRESS_SIZE,
          i ∈ (nrf_drv_radio802154_pib_dest_addr_matches k m p).reads) ∧
      (k.DEST_ADDR_TYPE_OFFSET < p.length → destMode k p ≠ k.DEST_ADDR_TYPE_SHORT →
        destMode k p = k.DEST_ADDR_TYPE_EXTENDED →
        ∀ i ∈ span (k.DEST_ADDR_OFFSET + 1) EXTENDED_ADDRESS_SIZE,
          i ∈ (nrf_drv_radio802154_pib_dest_addr_matches k m p).reads) ∧
      (k.DEST_ADDR_TYPE_OFFSET < p.length → destMode k p ≠ k.DEST_ADDR_TYPE_SHORT →
        destMode k p ≠ k.DEST_ADDR_TYPE_EXTENDED →
        ∀ i ∈ (nrf_drv_radio802154_pib_dest_addr_matches k m p).reads,
          i ∈ span (k.PAN_ID_OFFSET + 1) PAN_ID_SIZE ∨ i = k.DEST_ADDR_TYPE_OFFSET)) := by
  have hmem : ∀ i ∈ (nrf_drv_radio802154_pib_dest_addr_matches k m p).reads,
      i ∈ span (k.PAN_ID_OFFSET + 1) PAN_ID_SIZE ∨ i = k.DEST_ADDR_TYPE_OFFSET ∨
      (destMode k p = k.DEST_ADDR_TYPE_SHORT ∧
        i ∈ span (k.DEST_ADDR_OFFSET + 1) SHORT_ADDRESS_SIZE) ∨
      (destMode k p ≠ k.DEST_ADDR_TYPE_SHORT ∧ destMode k p = k.DEST_ADDR_TYPE_EXTENDED ∧
        i ∈ span (k.DEST_ADDR_OFFSET + 1) EXTENDED_ADDRESS_SIZE) := by
    intro i hi
    rw [dest_addr_matches_reads] at hi
    rcases List.mem_append.mp hi with h | h
    · exact Or.inl h
    · have h1 := (mem_of_mem_ite_nil_right _ _ h).2
      rcases List.mem_append.mp h1 with h2 | h2
      · exact Or.inl (mem_of_mem_ite_nil_right _ _ h2).2
      · have h3 := (mem_of_mem_ite_nil_left _ _ h2).2
        rcases List.mem_append.mp h3 with h4 | h4
        · exact Or.inr (Or.inl (List.mem_singleton.mp h4))
        · have h5 := (mem_of_mem_ite_nil_right _ _ h4).2
          by_cases hs : destMode k p = k.DEST_ADDR_TYPE_SHORT
          · rw [if_pos hs] at h5
            rcases List.mem_append.mp h5 with h6 | h6
            · exact Or.inr (Or.inr (Or.inl ⟨hs, h6⟩))
            · exact Or.inr (Or.inr (Or.inl ⟨hs, (mem_of_mem_ite_nil_right _ _ h6).2⟩))
          · rw [if_neg hs] at h5
            have h7 := mem_of_mem_ite_nil_right _ _ h5
            exact Or.inr (Or.inr (Or.inr ⟨hs, h7.1, h7.2⟩))
  refine ⟨hmem, ?_, ?_, ?_⟩
  · intro i hi
    rw [dest_addr_matches_reads]
    exact List.mem_append_left _ hi
  · intro hpan h1 h2
    exact dest_addr_matches_reads_pan_reject k m p hpan h1 h2
  · intro hpan hP
    have hok : ¬ (destPan k p ≠ m.pan_id.val ∧ destPan k p ≠ BROADCAST_ADDRESS.val) := by
      rintro ⟨h1, h2⟩
      rcases hP with hP | hP
      · exact h1 hP
      · exact h2 hP
    refine ⟨?_, ?_, ?_, ?_⟩
    · rw [dest_addr_matches_reads, if_pos hpan, if_neg hok]
      apply List.mem_append_right
      apply List.mem_append_right
      exact List.mem_append_left _ (List.mem_singleton_self _)
    · intro hmode hs i hi
      rw [dest_addr_matches_reads, if_pos hpan, if_neg hok, if_pos hmode, if_pos hs]
      apply List.mem_append_right
      apply List.mem_append_right
      apply List.mem_append_right
      exact List.mem_append_left _ hi
    · intro hmode hs he i hi
      rw [dest_addr_matches_reads, if_pos hpan, if_neg hok, if_pos hmode, if_neg hs, if_pos he]
      apply List.mem_append_right
      apply List.mem_append_right
      exact List.mem_append_right _ hi
    · intro _ hs he i hi
      rcases hmem i hi with h | h | h | h
      · exact Or.inl h
      · exact Or.inr h
      · exact absurd h.1 hs
      · exact absurd h.2.1 he

/-- Witness for C8 amended, in the layout `sampleConsts`: a short-mode frame for the stored PAN
ID is read at 4, 5 (PAN ID), 2 (mode byte), 6, 7 (address), with index 2 among the reads and
no index from 8 on; a frame for a foreign PAN ID is read at 4, 5 only. -/
theorem dest_addr_matches_field_indices_witness :
    (nrf_drv_radio802154_pib_dest_addr_matches sampleConsts sampleState
        (sampleFrame 0x88 1 [0x34, 0x12] [0x78, 0x56])).reads = [4, 5, 2, 6, 7] ∧
    sampleConsts.DEST_ADDR_TYPE_OFFSET ∈
      (nrf_drv_radio802154_pib_dest_addr_matches sampleConsts sampleState
        (sampleFrame 0x88 1 [0x34, 0x12] [0x78, 0x56])).reads ∧
    8 ∉ (nrf_drv_radio802154_pib_dest_addr_matches sampleConsts sampleState
        (sampleFrame 0x88 1 [0x34, 0x12] [0x78, 0x56])).reads ∧
    (nrf_drv_radio802154_pib_dest_addr_matches sampleConsts sampleState
        (sampleFrame 0x88 1 [0x35, 0x12] [0x78, 0x56])).reads = [4, 5, 4, 5] :=
  ⟨by decide,
    ((dest_addr_matches_field_indices sampleConsts sampleState
      (sampleFrame 0x88 1 [0x34, 0x12] [0x78, 0x56])).2.2.2 (by decide) (by decide)).1,
    fun h8 =>
      absurd ((dest_addr_matches_field_indices sampleConsts sampleState
        (sampleFrame 0x88 1 [0x34, 0x12] [0x78, 0x56])).1 8 h8) (by decide),
    (dest_addr_matches_field_indices sampleConsts sampleState
      (sampleFrame 0x88 1 [0x35, 0x12] [0x78, 0x56])).2.2.1 (by decide) (by decide) (by decide)⟩

/-- C9: a call of the predicate leaves `m_data` as it was, and a second call on the same
buffer returns what the first one returned; on a buffer long enough for the fields its mode
selects the call does return. -/
theorem dest_addr_matches_pure (k : FrameConsts) (m : nrf_drv_radio802154_pib_data_t)
    (p : List Nat) :
    (call k (Call.dest_addr_matches p) m).result =
      (nrf_drv_radio802154_pib_dest_addr_matches k m p).result.map
        (fun b => (Ret.bool b, m)) ∧
    ((call k (Call.dest_addr_matches p) m).andThen fun r1 =>
      (call k (Call.dest_addr_matches p) r1.2).andThen fun r2 =>
        Access.ret (r1.1, r2.1, r2.2)).result =
      (nrf_drv_radio802154_pib_dest_addr_matches k m p).result.map
        (fun b => (Ret.bool b, Ret.bool b, m)) ∧
    (k.PAN_ID_OFFSET + 1 + PAN_ID_SIZE ≤ p.length → k.DEST_ADDR_TYPE_OFFSET < p.length →
      (destMode k p = k.DEST_ADDR_TYPE_SHORT →
        k.DEST_ADDR_OFFSET + 1 + SHORT_ADDRESS_SIZE ≤ p.length) →
      (destMode k p = k.DEST_ADDR_TYPE_EXTENDED →
        k.DEST_ADDR_OFFSET + 1 + EXTENDED_ADDRESS_SIZE ≤ p.length) →
      ∃ b, (call k (Call.dest_addr_matches p) m).result = some (Ret.bool b, m)) := by
  have hcall : (call k (Call.dest_addr_matches p) m).result =
      (nrf_drv_radio802154_pib_dest_addr_matches k m p).result.map
        (fun b => (Ret.bool b, m)) := by
    simp only [call, Access.andThen_result, Access.ret]
    cases (nrf_drv_radio802154_pib_dest_addr_matches k m p).result <;> rfl
  refine ⟨hcall, ?_, ?_⟩
  · rw [Access.andThen_result, hcall]
    cases hres : (nrf_drv_radio802154_pib_dest_addr_matches k m p).result with
    | none => rfl
    | some b =>
      simp only [Option.map_some', Option.some_bind, Access.andThen_result, hcall, hres,
        Access.ret]
  · intro hpan hmode hshort hext
    rw [hcall, dest_addr_matches_result, if_pos hpan, if_pos hmode]
    by_cases hmis : destPan k p ≠ m.pan_id.val ∧ destPan k p ≠ BROADCAST_ADDRESS.val
    · rw [if_pos hmis]
      exact ⟨false, rfl⟩
    · rw [if_neg hmis]
      by_cases hs : destMode k p = k.DEST_ADDR_TYPE_SHORT
      · rw [if_pos hs, if_pos (hshort hs)]
        exact ⟨_, rfl⟩
      · rw [if_neg hs]
        by_cases he : destMode k p = k.DEST_ADDR_TYPE_EXTENDED
        · rw [if_pos he, if_pos (hext he)]
          exact ⟨_, rfl⟩
        · rw [if_neg he]
          exact ⟨false, rfl⟩

/-- Witness for C9: the call on a matching short-mode frame returns true and the state
`sampleState` unchanged, twice in a row. -/
theorem dest_addr_matches_pure_witness :
    (call sampleConsts (Call.dest_addr_matches (sampleFrame 0x88 1 [0x34, 0x12] [0x78, 0x56]))
      sampleState).result = some (Ret.bool true, sampleState) ∧
    ((call sampleConsts (Call.dest_addr_matches (sampleFrame 0x88 1 [0x34, 0x12] [0x78, 0x56]))
        sampleState).andThen fun r1 =>
      (call sampleConsts (Call.dest_addr_matches (sampleFrame 0x88 1 [0x34, 0x12] [0x78, 0x56]))
        r1.2).andThen fun r2 => Access.ret (r1.1, r2.1, r2.2)).result =
      some (Ret.bool true, Ret.bool true, sampleState) :=
  ⟨(dest_addr_matches_pure sampleConsts sampleState
      (sampleFrame 0x88 1 [0x34, 0x12] [0x78, 0x56])).1,
    (dest_addr_matches_pure sampleConsts sampleState
      (sampleFrame 0x88 1 [0x34, 0x12] [0x78, 0x56])).2.1⟩

/-! ## Initialization -/

/-- C10: after `nrf_drv_radio802154_pib_init`, from every prior state, promiscuous is false,
auto-ack is true, the channel is 11, the PAN ID is `{0xff, 0xff}`, the short address is
`{0xfe, 0xff}` and the extended address is eight zero bytes. -/
theorem init_defaults (m : nrf_drv_radio802154_pib_data_t) :
    nrf_drv_radio802154_pib_promiscuous_get (nrf_drv_radio802154_pib_init m) = false ∧
    nrf_drv_radio802154_pib_auto_ack_get (nrf_drv_radio802154_pib_init m) = true ∧
    nrf_drv_radio802154_pib_channel_get (nrf_drv_radio802154_pib_init m) = 11 ∧
    (nrf_drv_radio802154_pib_init m).pan_id.val = [0xff, 0xff] ∧
    (nrf_drv_radio802154_pib_init m).short_addr.val = [0xfe, 0xff] ∧
    (nrf_drv_radio802154_pib_init m).extended_addr.val = [0, 0, 0, 0, 0, 0, 0, 0] := by
  rcases m with ⟨tx, pan, ⟨sa, hsa⟩, ext, pr, aa, ch⟩
  match sa, hsa with
  | [a, b], _ =>
    refine ⟨rfl, rfl, rfl, rfl, rfl, rfl⟩

/-- C11, as stated, fails: two prior states that differ in the transmit power still differ in
it after `nrf_drv_radio802154_pib_init`. -/
theorem init_keeps_tx_power_counterexample :
    nrf_drv_radio802154_pib_tx_power_get
        (nrf_drv_radio802154_pib_init (nrf_drv_radio802154_pib_tx_power_set 0 sampleState)) = 0 ∧
    nrf_drv_radio802154_pib_tx_power_get
        (nrf_drv_radio802154_pib_init (nrf_drv_radio802154_pib_tx_power_set 8 sampleState)) = 8 ∧
    nrf_drv_radio802154_pib_init (nrf_drv_radio802154_pib_tx_power_set 0 sampleState) ≠
      nrf_drv_radio802154_pib_init (nrf_drv_radio802154_pib_tx_power_set 8 sampleState) := by
  decide

/-- C11, amended: for every two prior states the states after
`nrf_drv_radio802154_pib_init` agree in the PAN ID, the short address, the extended address,
promiscuous, auto-ack and the channel; they are equal up to the transmit power. -/
theorem init_resets_all_but_tx_power (s1 s2 : nrf_drv_radio802154_pib_data_t) :
    (nrf_drv_radio802154_pib_init s1).pan_id = (nrf_drv_radio802154_pib_init s2).pan_id ∧
    (nrf_drv_radio802154_pib_init s1).short_addr =
      (nrf_drv_radio802154_pib_init s2).short_addr ∧
    (nrf_drv_radio802154_pib_init s1).extended_addr =
      (nrf_drv_radio802154_pib_init s2).extended_addr ∧
    (nrf_drv_radio802154_pib_init s1).promiscuous =
      (nrf_drv_radio802154_pib_init s2).promiscuous ∧
    (nrf_drv_radio802154_pib_init s1).auto_ack = (nrf_drv_radio802154_pib_init s2).auto_ack ∧
    (nrf_drv_radio802154_pib_init s1).channel = (nrf_drv_radio802154_pib_init s2).channel ∧
    nrf_drv_radio802154_pib_init s1 =
      { nrf_drv_radio802154_pib_init s2 with
        tx_power := (nrf_drv_radio802154_pib_init s1).tx_power } := by
  rcases s1 with ⟨tx1, pan1, ⟨sa1, hsa1⟩, ext1, pr1, aa1, ch1⟩
  rcases s2 with ⟨tx2, pan2, ⟨sa2, hsa2⟩, ext2, pr2, aa2, ch2⟩
  match sa1, hsa1, sa2, hsa2 with
  | [a1, b1], _, [a2, b2], _ =>
    refine ⟨rfl, rfl, rfl, rfl, rfl, rfl, rfl⟩

/-- C12: `nrf_drv_radio802154_pib_init` leaves the transmit power as it was: the getter
returns after it what it returned before, and a power set before it is read back after it. -/
theorem init_keeps_tx_power (m : nrf_drv_radio802154_pib_data_t) (d : Int) :
    nrf_drv_radio802154_pib_tx_power_get (nrf_drv_radio802154_pib_init m) =
      nrf_drv_radio802154_pib_tx_power_get m ∧
    nrf_drv_radio802154_pib_tx_power_get
      (nrf_drv_radio802154_pib_init (nrf_drv_radio802154_pib_tx_power_set d m)) = d :=
  ⟨rfl, rfl⟩

/-! ## Setters and getters -/

/-- C13: from every state, `promiscuous_set(b)` then `promiscuous_get()` gives `b`,
`auto_ack_set(b)` then `auto_ack_get()` gives `b`, and `tx_power_set(d)` then
`tx_power_get()` gives `d`, for every `d`, the extremes -128 and 127 included. -/
theorem scalar_set_get (m : nrf_drv_radio802154_pib_data_t) (b : Bool) (d : Int) :
    nrf_drv_radio802154_pib_promiscuous_get (nrf_drv_radio802154_pib_promiscuous_set b m) = b ∧
    nrf_drv_radio802154_pib_auto_ack_get (nrf_drv_radio802154_pib_auto_ack_set b m) = b ∧
    nrf_drv_radio802154_pib_tx_power_get (nrf_drv_radio802154_pib_tx_power_set d m) = d ∧
    nrf_drv_radio802154_pib_tx_power_get (nrf_drv_radio802154_pib_tx_power_set (-128) m)
      = -128 ∧
    nrf_drv_radio802154_pib_tx_power_get (nrf_drv_radio802154_pib_tx_power_set 127 m) = 127 :=
  ⟨rfl, rfl, rfl, rfl, rfl⟩

/-- C14, as stated, fails: `channel_set(32)` is read back as 0 and `channel_set(255)` as 31. -/
theorem channel_set_get_counterexample :
    nrf_drv_radio802154_pib_channel_get (nrf_drv_radio802154_pib_channel_set 32 sampleState)
      = 0 ∧
    nrf_drv_radio802154_pib_channel_get (nrf_drv_radio802154_pib_channel_set 255 sampleState)
      = 31 ∧
    nrf_drv_radio802154_pib_channel_get (nrf_drv_radio802154_pib_channel_set 32 sampleState)
      ≠ 32 := by
  decide

/-- C14, amended: from every state and for every channel value below 32,
`channel_set(c)` then `channel_get()` gives exactly `c`. -/
theorem channel_set_get (m : nrf_drv_radio802154_pib_data_t) (c : Nat) (hc : c < 32) :
    nrf_drv_radio802154_pib_channel_get (nrf_drv_radio802154_pib_channel_set c m) = c := by
  show c % 2 ^ 8 % 2 ^ 5 = c
  omega

/-- Witness for C14 amended: channel 26. -/
theorem channel_set_get_witness :
    nrf_drv_radio802154_pib_channel_get (nrf_drv_radio802154_pib_channel_set 26 sampleState)
      = 26 :=
  channel_set_get sampleState 26 (by decide)

/-- C15: each setter leaves the six attributes other than its own as they were.  The sources
of the three byte-array setters hold at least the bytes that are copied. -/
theorem setters_frame (m : nrf_drv_radio802154_pib_data_t) (b : Bool) (c : Nat) (d : Int)
    (p s e : List Nat) (hp : PAN_ID_SIZE ≤ p.length) (hs : SHORT_ADDRESS_SIZE ≤ s.length)
    (he : EXTENDED_ADDRESS_SIZE ≤ e.length) :
    ((nrf_drv_radio802154_pib_promiscuous_set b m).tx_power = m.tx_power ∧
      (nrf_drv_radio802154_pib_promiscuous_set b m).pan_id = m.pan_id ∧
      (nrf_drv_radio802154_pib_promiscuous_set b m).short_addr = m.short_addr ∧
      (nrf_drv_radio802154_pib_promiscuous_set b m).extended_addr = m.extended_addr ∧
      (nrf_drv_radio802154_pib_promiscuous_set b m).auto_ack = m.auto_ack ∧
      (nrf_drv_radio802154_pib_promiscuous_set b m).channel = m.channel) ∧
    ((nrf_drv_radio802154_pib_auto_ack_set b m).tx_power = m.tx_power ∧
      (nrf_drv_radio802154_pib_auto_ack_set b m).pan_id = m.pan_id ∧
      (nrf_drv_radio802154_pib_auto_ack_set b m).short_addr = m.short_addr ∧
      (nrf_drv_radio802154_pib_auto_ack_set b m).extended_addr = m.extended_addr ∧
      (nrf_drv_radio802154_pib_auto_ack_set b m).promiscuous = m.promiscuous ∧
      (nrf_drv_radio802154_pib_auto_ack_set b m).channel = m.channel) ∧
    ((nrf_drv_radio802154_pib_channel_set c m).tx_power = m.tx_power ∧
      (nrf_drv_radio802154_pib_channel_set c m).pan_id = m.pan_id ∧
      (nrf_drv_radio802154_pib_channel_set c m).short_addr = m.short_addr ∧
      (nrf_drv_radio802154_pib_channel_set c m).extended_addr = m.extended_addr ∧
      (nrf_drv_radio802154_pib_channel_set c m).promiscuous = m.promiscuous ∧
      (nrf_drv_radio802154_pib_channel_set c m).auto_ack = m.auto_ack) ∧
    ((nrf_drv_radio802154_pib_tx_power_set d m).pan_id = m.pan_id ∧
      (nrf_drv_radio802154_pib_tx_power_set d m).short_addr = m.short_addr ∧
      (nrf_drv_radio802154_pib_tx_power_set d m).extended_addr = m.extended_addr ∧
      (nrf_drv_radio802154_pib_tx_power_set d m).promiscuous = m.promiscuous ∧
      (nrf_drv_radio802154_pib_tx_power_set d m).auto_ack = m.auto_ack ∧
      (nrf_drv_radio802154_pib_tx_power_set d m).channel = m.channel) ∧
    (∃ m1, (nrf_drv_radio802154_pib_pan_id_set p m).result = some m1 ∧
      m1.tx_power = m.tx_power ∧ m1.short_addr = m.short_addr ∧
      m1.extended_addr = m.extended_addr ∧ m1.promiscuous = m.promiscuous ∧
      m1.auto_ack = m.auto_ack ∧ m1.channel = m.channel) ∧
    (∃ m1, (nrf_drv_radio802154_pib_short_address_set s m).result = some m1 ∧
      m1.tx_power = m.tx_power ∧ m1.pan_id = m.pan_id ∧
      m1.extended_addr = m.extended_addr ∧ m1.promiscuous = m.promiscuous ∧
      m1.auto_ack = m.auto_ack ∧ m1.channel = m.channel) ∧
    (∃ m1, (nrf_drv_radio802154_pib_extended_address_set e m).result = some m1 ∧
      m1.tx_power = m.tx_power ∧ m1.pan_id = m.pan_id ∧
      m1.short_addr = m.short_addr ∧ m1.promiscuous = m.promiscuous ∧
      m1.auto_ack = m.auto_ack ∧ m1.channel = m.channel) :=
  ⟨⟨rfl, rfl, rfl, rfl, rfl, rfl⟩, ⟨rfl, rfl, rfl, rfl, rfl, rfl⟩,
    ⟨rfl, rfl, rfl, rfl, rfl, rfl⟩, ⟨rfl, rfl, rfl, rfl, rfl, rfl⟩,
    ⟨_, pan_id_set_result p m hp, rfl, rfl, rfl, rfl, rfl, rfl⟩,
    ⟨_, short_address_set_result s m hs, rfl, rfl, rfl, rfl, rfl, rfl⟩,
    ⟨_, extended_address_set_result e m he, rfl, rfl, rfl, rfl, rfl, rfl⟩⟩

/-- Witness for C15: `channel_set(43)` on a state with promiscuous false and auto-ack true
changes neither, and `pan_id_set` from a source of four bytes leaves the short and the extended
address as they were. -/
theorem setters_frame_witness :
    ((nrf_drv_radio802154_pib_channel_set 43 sampleState).promiscuous = false ∧
      (nrf_drv_radio802154_pib_channel_set 43 sampleState).auto_ack = true) ∧
    ∃ m1, (nrf_drv_radio802154_pib_pan_id_set [0xcd, 0xab, 0x11, 0x22] sampleState).result
        = some m1 ∧
      m1.short_addr.val = [0x78, 0x56] ∧
      m1.extended_addr.val = [0x01, 0x02, 0x03, 0x04, 0x05, 0x06, 0x07, 0x08] :=
  have h := setters_frame sampleState true 43 (-5) [0xcd, 0xab, 0x11, 0x22] [0x01, 0x00]
    [8, 7, 6, 5, 4, 3, 2, 1] (by decide) (by decide) (by decide)
  ⟨⟨h.2.2.1.2.2.2.2.1, h.2.2.1.2.2.2.2.2⟩,
    h.2.2.2.2.1.elim fun m1 hm1 =>
      ⟨m1, hm1.1, by rw [hm1.2.2.1]; rfl, by rw [hm1.2.2.2.1]; rfl⟩⟩

/-- C16: `pan_id_set(p)` stores the first 2 bytes of `p`, `short_address_set(p)` the first 2
bytes and `extended_address_set(p)` the first 8 bytes; a second source that agrees with `p`
on these bytes leads to the same state. -/
theorem byte_setters_copy (m : nrf_drv_radio802154_pib_data_t) (p q s t e f : List Nat)
    (hp : 2 ≤ p.length) (hs : 2 ≤ s.length) (he : 8 ≤ e.length)
    (hpq : q.take 2 = p.take 2) (hst : t.take 2 = s.take 2) (hef : f.take 8 = e.take 8) :
    (∃ m1, (nrf_drv_radio802154_pib_pan_id_set p m).result = some m1 ∧
      m1.pan_id.val = p.take 2 ∧
      (nrf_drv_radio802154_pib_pan_id_set q m).result = some m1) ∧
    (∃ m1, (nrf_drv_radio802154_pib_short_address_set s m).result = some m1 ∧
      m1.short_addr.val = s.take 2 ∧
      (nrf_drv_radio802154_pib_short_address_set t m).result = some m1) ∧
    (∃ m1, (nrf_drv_radio802154_pib_extended_address_set e m).result = some m1 ∧
      m1.extended_addr.val = e.take 8 ∧
      (nrf_drv_radio802154_pib_extended_address_set f m).result = some m1) := by
  have hlen (n : Nat) (x y : List Nat) (hx : n ≤ x.length) (hxy : y.take n = x.take n) :
      n ≤ y.length := by
    have h1 := congrArg List.length hxy
    simp only [List.length_take] at h1
    omega
  have hq := hlen 2 p q hp hpq
  have ht := hlen 2 s t hs hst
  have hf := hlen 8 e f he hef
  refine ⟨⟨_, pan_id_set_result p m hp, rfl, ?_⟩, ⟨_, short_address_set_result s m hs, rfl, ?_⟩,
    ⟨_, extended_address_set_result e m he, rfl, ?_⟩⟩
  · rw [pan_id_set_result q m hq]
    simp only [hpq]
  · rw [short_address_set_result t m ht]
    simp only [hst]
  · rw [extended_address_set_result f m hf]
    simp only [hef]

/-- Witness for C16: sources longer than the attribute; only the first 2 (or 8) bytes are
stored, and a source with other trailing bytes gives the same state. -/
theorem byte_setters_copy_witness :
    (∃ m1, (nrf_drv_radio802154_pib_pan_id_set [0xcd, 0xab, 0x11, 0x22] sampleState).result
        = some m1 ∧ m1.pan_id.val = [0xcd, 0xab] ∧
      (nrf_drv_radio802154_pib_pan_id_set [0xcd, 0xab, 0x99] sampleState).result = some m1) ∧
    (∃ m1, (nrf_drv_radio802154_pib_short_address_set [0x01, 0x00, 0x77] sampleState).result
        = some m1 ∧ m1.short_addr.val = [0x01, 0x00] ∧
      (nrf_drv_radio802154_pib_short_address_set [0x01, 0x00] sampleState).result = some m1) ∧
    (∃ m1, (nrf_drv_radio802154_pib_extended_address_set [8, 7, 6, 5, 4, 3, 2, 1, 0]
        sampleState).result = some m1 ∧ m1.extended_addr.val = [8, 7, 6, 5, 4, 3, 2, 1] ∧
      (nrf_drv_radio802154_pib_extended_address_set [8, 7, 6, 5, 4, 3, 2, 1, 0xff, 0xff]
        sampleState).result = some m1) :=
  byte_setters_copy sampleState [0xcd, 0xab, 0x11, 0x22] [0xcd, 0xab, 0x99]
    [0x01, 0x00, 0x77] [0x01, 0x00] [8, 7, 6, 5, 4, 3, 2, 1, 0] [8, 7, 6, 5, 4, 3, 2, 1, 0xff, 0xff]
    (by decide) (by decide) (by decide) rfl rfl rfl

/-- C17: two states with the same PAN ID, short address and extended address give the same
outcome of the predicate on every buffer, whatever their promiscuous, auto-ack, channel and
transmit-power values are. -/
theorem dest_addr_matches_ignores_flags (k : FrameConsts)
    (m1 m2 : nrf_drv_radio802154_pib_data_t) (p : List Nat)
    (hpan : m1.pan_id = m2.pan_id) (hshort : m1.short_addr = m2.short_addr)
    (hext : m1.extended_addr = m2.extended_addr) :
    nrf_drv_radio802154_pib_dest_addr_matches k m1 p =
      nrf_drv_radio802154_pib_dest_addr_matches k m2 p := by
  unfold nrf_drv_radio802154_pib_dest_addr_matches
  rw [hpan, hshort, hext]

/-- Witness for C17: with promiscuous true a frame for a foreign short address is still
reported as no match, as it is with promiscuous false. -/
theorem dest_addr_matches_ignores_flags_witness :
    sampleStatePromiscuous.promiscuous = true ∧
    (nrf_drv_radio802154_pib_dest_addr_matches sampleConsts sampleStatePromiscuous
      (sampleFrame 0x88 1 [0x34, 0x12] [0x99, 0x99])).result = some false ∧
    nrf_drv_radio802154_pib_dest_addr_matches sampleConsts sampleState
        (sampleFrame 0x88 1 [0x34, 0x12] [0x99, 0x99]) =
      nrf_drv_radio802154_pib_dest_addr_matches sampleConsts sampleStatePromiscuous
        (sampleFrame 0x88 1 [0x34, 0x12] [0x99, 0x99]) :=
  ⟨rfl, by decide,
    dest_addr_matches_ignores_flags sampleConsts sampleState sampleStatePromiscuous
      (sampleFrame 0x88 1 [0x34, 0x12] [0x99, 0x99]) rfl rfl rfl⟩

/-! ## The channel in reachable states -/

/-- One call keeps the stored channel below 32. -/
theorem call_channel_lt (k : FrameConsts) (c : Call) (m m1 : nrf_drv_radio802154_pib_data_t)
    (r : Ret) (hm : m.channel < 32) (h : (call k c m).result = some (r, m1)) :
    m1.channel < 32 := by
  cases c with
  | init =>
    simp only [call, Access.ret, Option.some.injEq, Prod.mk.injEq] at h
    rw [← h.2]
    show 11 % 2 ^ 5 < 32
    decide
  | channel_set ch =>
    simp only [call, Access.ret, Option.some.injEq, Prod.mk.injEq] at h
    rw [← h.2]
    show ch % 2 ^ 8 % 2 ^ 5 < 32
    omega
  | promiscuous_get | auto_ack_get | channel_get | tx_power_get =>
    simp only [call, Access.ret, Option.some.injEq, Prod.mk.injEq] at h
    rw [← h.2]
    exact hm
  | promiscuous_set b | auto_ack_set b | tx_power_set d =>
    simp only [call, Access.ret, Option.some.injEq, Prod.mk.injEq] at h
    rw [← h.2]
    exact hm
  | pan_id_set p =>
    simp only [call, nrf_drv_radio802154_pib_pan_id_set] at h
    rcases hx : memcpy PAN_ID_SIZE p with ⟨rd, _ | a⟩
    · simp [hx, Access.andThen] at h
    · simp only [hx, Access.andThen, Access.ret, Option.some.injEq, Prod.mk.injEq] at h
      rw [← h.2]
      exact hm
  | extended_address_set p =>
    simp only [call, nrf_drv_radio802154_pib_extended_address_set] at h
    rcases hx : memcpy EXTENDED_ADDRESS_SIZE p with ⟨rd, _ | a⟩
    · simp [hx, Access.andThen] at h
    · simp only [hx, Access.andThen, Access.ret, Option.some.injEq, Prod.mk.injEq] at h
      rw [← h.2]
      exact hm
  | short_address_set p =>
    simp only [call, nrf_drv_radio802154_pib_short_address_set] at h
    rcases hx : memcpy SHORT_ADDRESS_SIZE p with ⟨rd, _ | a⟩
    · simp [hx, Access.andThen] at h
    · simp only [hx, Access.andThen, Access.ret, Option.some.injEq, Prod.mk.injEq] at h
      rw [← h.2]
      exact hm
  | dest_addr_matches p =>
    simp only [call] at h
    rcases hx : nrf_drv_radio802154_pib_dest_addr_matches k m p with ⟨rd, _ | a⟩
    · simp [hx, Access.andThen] at h
    · simp only [hx, Access.andThen, Access.ret, Option.some.injEq, Prod.mk.injEq] at h
      rw [← h.2]
      exact hm

/-- A sequence of calls keeps the stored channel below 32. -/
theorem run_channel_lt (k : FrameConsts) (cs : List Call)
    (m m1 : nrf_drv_radio802154_pib_data_t) (hm : m.channel < 32)
    (h : (run k cs m).result = some m1) : m1.channel < 32 := by
  induction cs generalizing m with
  | nil =>
    simp only [run, Access.ret, Option.some.injEq] at h
    rw [← h]
    exact hm
  | cons c cs ih =>
    simp only [run, Access.andThen_result] at h
    cases hc : (call k c m).result with
    | none => simp [hc] at h
    | some r =>
      rw [hc, Option.some_bind] at h
      exact ih r.2 (call_channel_lt k c m r.2 r.1 hm hc) h

/-- C18: in every state reached from `nrf_drv_radio802154_pib_init` by a sequence of calls of
the module the channel read back is below 32, and `channel_set(c)` then `channel_get()` gives
`c mod 32`: 0 for 32 and 11 for 43. -/
theorem channel_fits_five_bits (k : FrameConsts) (m0 m : nrf_drv_radio802154_pib_data_t)
    (cs : List Call) (c : Nat)
    (h : (run k cs (nrf_drv_radio802154_pib_init m0)).result = some m) :
    nrf_drv_radio802154_pib_channel_get m < 32 ∧
    nrf_drv_radio802154_pib_channel_get (nrf_drv_radio802154_pib_channel_set c m) = c % 32 ∧
    nrf_drv_radio802154_pib_channel_get (nrf_drv_radio802154_pib_channel_set 32 m) = 0 ∧
    nrf_drv_radio802154_pib_channel_get (nrf_drv_radio802154_pib_channel_set 43 m) = 11 := by
  refine ⟨?_, ?_, rfl, rfl⟩
  · exact run_channel_lt k cs (nrf_drv_radio802154_pib_init m0) m
      (show 11 % 2 ^ 5 < 32 by decide) h
  · show c % 2 ^ 8 % 2 ^ 5 = c % 32
    omega

/-- Witness for C18: after init, `channel_set(43)`, a PAN ID store and a call of the predicate
the channel read back is 11. -/
theorem channel_fits_five_bits_witness :
    (run sampleConsts
        [Call.channel_set 43, Call.pan_id_set [0x34, 0x12],
          Call.dest_addr_matches (sampleFrame 0x88 1 [0x34, 0x12] [0xff, 0xff])]
        (nrf_drv_radio802154_pib_init sampleStatePromiscuous)).result =
      some (nrf_drv_radio802154_pib_channel_set 43
        { nrf_drv_radio802154_pib_init sampleStatePromiscuous with
          pan_id := ⟨[0x34, 0x12], rfl⟩ }) ∧
    nrf_drv_radio802154_pib_channel_get (nrf_drv_radio802154_pib_channel_set 43
        { nrf_drv_radio802154_pib_init sampleStatePromiscuous with
          pan_id := ⟨[0x34, 0x12], rfl⟩ }) = 11 ∧
    nrf_drv_radio802154_pib_channel_get (nrf_drv_radio802154_pib_channel_set 200
      (nrf_drv_radio802154_pib_channel_set 43
        { nrf_drv_radio802154_pib_init sampleStatePromiscuous with
          pan_id := ⟨[0x34, 0x12], rfl⟩ })) = 8 :=
  have h := channel_fits_five_bits sampleConsts sampleStatePromiscuous
    (nrf_drv_radio802154_pib_channel_set 43
      { nrf_drv_radio802154_pib_init sampleStatePromiscuous with
        pan_id := ⟨[0x34, 0x12], rfl⟩ })
    [Call.channel_set 43, Call.pan_id_set [0x34, 0x12],
      Call.dest_addr_matches (sampleFrame 0x88 1 [0x34, 0x12] [0xff, 0xff])] 200 (by decide)
  ⟨by decide, by decide, h.2.1⟩

/-! ## Bounds of the reads and dependence on the buffer -/

/-- C19, as stated, fails: the buffer `{0x05, 0x02, 0x00, 0x2a}` (length byte, the frame control
of an acknowledgement with mode bits "no address", sequence number) meets the stated
precondition in the layout `sampleConsts`, and the predicate reads index 4, past its end. -/
theorem reads_in_bounds_counterexample :
    sampleConsts.DEST_ADDR_TYPE_OFFSET < [0x05, 0x02, 0x00, 0x2a].length ∧
    (destMode sampleConsts [0x05, 0x02, 0x00, 0x2a] = sampleConsts.DEST_ADDR_TYPE_SHORT ∨
      destMode sampleConsts [0x05, 0x02, 0x00, 0x2a] = sampleConsts.DEST_ADDR_TYPE_EXTENDED →
      sampleConsts.PAN_ID_OFFSET + 1 + 2 ≤ [0x05, 0x02, 0x00, 0x2a].length) ∧
    (destMode sampleConsts [0x05, 0x02, 0x00, 0x2a] = sampleConsts.DEST_ADDR_TYPE_SHORT →
      sampleConsts.DEST_ADDR_OFFSET + 1 + 2 ≤ [0x05, 0x02, 0x00, 0x2a].length) ∧
    (destMode sampleConsts [0x05, 0x02, 0x00, 0x2a] = sampleConsts.DEST_ADDR_TYPE_EXTENDED →
      sampleConsts.DEST_ADDR_OFFSET + 1 + 8 ≤ [0x05, 0x02, 0x00, 0x2a].length) ∧
    4 ∈ (nrf_drv_radio802154_pib_dest_addr_matches sampleConsts sampleState
      [0x05, 0x02, 0x00, 0x2a]).reads ∧
    ¬ 4 < [0x05, 0x02, 0x00, 0x2a].length ∧
    (nrf_drv_radio802154_pib_dest_addr_matches sampleConsts sampleState
      [0x05, 0x02, 0x00, 0x2a]).result = none := by
  decide

/-- C19, amended: for every state and every buffer that holds the mode byte, the 2 bytes at
`PAN_ID_OFFSET + 1` whatever its mode bits are, the 2 bytes at `DEST_ADDR_OFFSET + 1` when its
mode is short and the 8 bytes there when its mode is extended, every index that the predicate
reads is inside the buffer, and the predicate returns. -/
theorem dest_addr_matches_reads_in_bounds (k : FrameConsts)
    (m : nrf_drv_radio802154_pib_data_t) (p : List Nat)
    (hmode : k.DEST_ADDR_TYPE_OFFSET < p.length)
    (hpan : k.PAN_ID_OFFSET + 1 + 2 ≤ p.length)
    (hshort : destMode k p = k.DEST_ADDR_TYPE_SHORT → k.DEST_ADDR_OFFSET + 1 + 2 ≤ p.length)
    (hext : destMode k p = k.DEST_ADDR_TYPE_EXTENDED → k.DEST_ADDR_OFFSET + 1 + 8 ≤ p.length) :
    (∀ i ∈ (nrf_drv_radio802154_pib_dest_addr_matches k m p).reads, i < p.length) ∧
    ∃ b, (nrf_drv_radio802154_pib_dest_addr_matches k m p).result = some b := by
  have hpan2 : k.PAN_ID_OFFSET + 1 + PAN_ID_SIZE ≤ p.length := hpan
  constructor
  · intro i hi
    rw [dest_addr_matches_reads, if_pos hpan2, if_pos hmode] at hi
    rcases List.mem_append.mp hi with h | h
    · exact span_lt _ _ _ _ hpan2 h
    · rcases List.mem_append.mp h with h | h
      · exact span_lt _ _ _ _ hpan2 (mem_of_mem_ite_nil_right _ _ h).2
      · have h2 := (mem_of_mem_ite_nil_left _ _ h).2
        rcases List.mem_append.mp h2 with h3 | h3
        · rw [List.mem_singleton] at h3
          rw [h3]
          exact hmode
        · by_cases hs : destMode k p = k.DEST_ADDR_TYPE_SHORT
          · rw [if_pos hs] at h3
            have hb : k.DEST_ADDR_OFFSET + 1 + SHORT_ADDRESS_SIZE ≤ p.length := hshort hs
            rcases List.mem_append.mp h3 with h4 | h4
            · exact span_lt _ _ _ _ hb h4
            · exact span_lt _ _ _ _ hb (mem_of_mem_ite_nil_right _ _ h4).2
          · rw [if_neg hs] at h3
            have h5 := mem_of_mem_ite_nil_right _ _ h3
            have hb : k.DEST_ADDR_OFFSET + 1 + EXTENDED_ADDRESS_SIZE ≤ p.length := hext h5.1
            exact span_lt _ _ _ _ hb h5.2
  · rw [dest_addr_matches_result, if_pos hpan2, if_pos hmode]
    by_cases hmis : destPan k p ≠ m.pan_id.val ∧ destPan k p ≠ BROADCAST_ADDRESS.val
    · rw [if_pos hmis]
      exact ⟨false, rfl⟩
    · rw [if_neg hmis]
      by_cases hs : destMode k p = k.DEST_ADDR_TYPE_SHORT
      · rw [if_pos hs, if_pos (hshort hs)]
        exact ⟨_, rfl⟩
      · rw [if_neg hs]
        by_cases he : destMode k p = k.DEST_ADDR_TYPE_EXTENDED
        · rw [if_pos he, if_pos (hext he)]
          exact ⟨_, rfl⟩
        · rw [if_neg he]
          exact ⟨false, rfl⟩

/-- Witness for C19 amended: an acknowledgement with its two check bytes in the buffer, mode
bits "no address": the predicate reads indices 4 and 5 (twice) and nothing else, inside the
6 bytes. -/
theorem dest_addr_matches_reads_in_bounds_witness :
    (nrf_drv_radio802154_pib_dest_addr_matches sampleConsts sampleState
      [0x05, 0x02, 0x00, 0x2a, 0x10, 0x20]).reads = [4, 5, 4, 5] ∧
    (∀ i ∈ (nrf_drv_radio802154_pib_dest_addr_matches sampleConsts sampleState
      [0x05, 0x02, 0x00, 0x2a, 0x10, 0x20]).reads, i < 6) ∧
    ∃ b, (nrf_drv_radio802154_pib_dest_addr_matches sampleConsts sampleState
      [0x05, 0x02, 0x00, 0x2a, 0x10, 0x20]).result = some b :=
  ⟨by decide,
    dest_addr_matches_reads_in_bounds sampleConsts sampleState
      [0x05, 0x02, 0x00, 0x2a, 0x10, 0x20] (by decide) (by decide) (by decide) (by decide)⟩

theorem take_drop_bound_iff (p q : List Nat) (off n : Nat) (hn : 0 < n)
    (h : (p.drop off).take n = (q.drop off).take n) :
    off + n ≤ p.length ↔ off + n ≤ q.length := by
  have h1 := congrArg List.length h
  simp only [List.length_take, List.length_drop] at h1
  omega

/-- C20: two buffers that hold the mode byte and agree on the masked mode bits, on the 2 bytes
at `PAN_ID_OFFSET + 1` and on the address bytes at `DEST_ADDR_OFFSET + 1` (2 in short mode, 8
in extended mode) give the same result of the predicate, in every state. -/
theorem dest_addr_matches_depends_on_fields (k : FrameConsts)
    (m : nrf_drv_radio802154_pib_data_t) (p q : List Nat)
    (hmp : k.DEST_ADDR_TYPE_OFFSET < p.length) (hmq : k.DEST_ADDR_TYPE_OFFSET < q.length)
    (hMode : destMode k p = destMode k q)
    (hPan : destPan k p = destPan k q)
    (hS : destMode k p = k.DEST_ADDR_TYPE_SHORT → destAddr k p 2 = destAddr k q 2)
    (hE : destMode k p = k.DEST_ADDR_TYPE_EXTENDED → destAddr k p 8 = destAddr k q 8) :
    (nrf_drv_radio802154_pib_dest_addr_matches k m p).result =
      (nrf_drv_radio802154_pib_dest_addr_matches k m q).result := by
  have hb1 : k.PAN_ID_OFFSET + 1 + PAN_ID_SIZE ≤ p.length ↔
      k.PAN_ID_OFFSET + 1 + PAN_ID_SIZE ≤ q.length :=
    take_drop_bound_iff p q (k.PAN_ID_OFFSET + 1) PAN_ID_SIZE (by decide) hPan
  rw [dest_addr_matches_result k m p, dest_addr_matches_result k m q, ← hMode, ← hPan]
  by_cases hpan : k.PAN_ID_OFFSET + 1 + PAN_ID_SIZE ≤ p.length
  · simp only [if_pos hpan, if_pos (hb1.mp hpan), if_pos hmp, if_pos hmq]
    by_cases hmis : destPan k p ≠ m.pan_id.val ∧ destPan k p ≠ BROADCAST_ADDRESS.val
    · simp only [if_pos hmis]
    · simp only [if_neg hmis]
      by_cases hs : destMode k p = k.DEST_ADDR_TYPE_SHORT
      · have hA : destAddr k p SHORT_ADDRESS_SIZE = destAddr k q SHORT_ADDRESS_SIZE := hS hs
        have hb2 := take_drop_bound_iff p q (k.DEST_ADDR_OFFSET + 1) SHORT_ADDRESS_SIZE
          (by decide) hA
        simp only [if_pos hs, ← hA]
        by_cases hb : k.DEST_ADDR_OFFSET + 1 + SHORT_ADDRESS_SIZE ≤ p.length
        · simp only [if_pos hb, if_pos (hb2.mp hb)]
        · simp only [if_neg hb, if_neg (fun h => hb (hb2.mpr h))]
      · simp only [if_neg hs]
        by_cases he : destMode k p = k.DEST_ADDR_TYPE_EXTENDED
        · have hA : destAddr k p EXTENDED_ADDRESS_SIZE = destAddr k q EXTENDED_ADDRESS_SIZE :=
            hE he
          have hb2 := take_drop_bound_iff p q (k.DEST_ADDR_OFFSET + 1) EXTENDED_ADDRESS_SIZE
            (by decide) hA
          simp only [if_pos he, ← hA]
          by_cases hb : k.DEST_ADDR_OFFSET + 1 + EXTENDED_ADDRESS_SIZE ≤ p.length
          · simp only [if_pos hb, if_pos (hb2.mp hb)]
          · simp only [if_neg hb, if_neg (fun h => hb (hb2.mpr h))]
        · simp only [if_neg he]
  · simp only [if_neg hpan, if_neg (fun h => hpan (hb1.mpr h))]

/-- Witness for C20: a short-mode frame and a buffer that differs from it in the length byte,
in the first frame-control byte, in the bits of the control byte outside the mask, in the
sequence number and in everything after the 2 address bytes; both are matched. -/
theorem dest_addr_matches_depends_on_fields_witness :
    (nrf_drv_radio802154_pib_dest_addr_matches sampleConsts sampleState
      [0x0d, 0x41, 0x88, 0x01, 0x34, 0x12, 0x78, 0x56, 0xaa, 0xbb]).result =
    (nrf_drv_radio802154_pib_dest_addr_matches sampleConsts sampleState
      [0x7f, 0x00, 0x4b, 0x09, 0x34, 0x12, 0x78, 0x56, 1, 2, 3, 4, 5, 6, 7]).result ∧
    (nrf_drv_radio802154_pib_dest_addr_matches sampleConsts sampleState
      [0x7f, 0x00, 0x4b, 0x09, 0x34, 0x12, 0x78, 0x56, 1, 2, 3, 4, 5, 6, 7]).result
      = some true :=
  ⟨dest_addr_matches_depends_on_fields sampleConsts sampleState
      [0x0d, 0x41, 0x88, 0x01, 0x34, 0x12, 0x78, 0x56, 0xaa, 0xbb]
      [0x7f, 0x00, 0x4b, 0x09, 0x34, 0x12, 0x78, 0x56, 1, 2, 3, 4, 5, 6, 7]
      (by decide) (by decide) (by decide) (by decide) (by decide) (by decide),
    by decide⟩

end Pib
